import Mathlib

/-!
# Kube-context selection and drift reconciliation of `pkg/devspace/kubectl/client.go`

A shallow embedding of `NewClientFromContext`, `NewClientBySelect` and
`client.CheckKubeContext`.  The Go functions talk to a logger, to the terminal
and to the kube-config loader; here every such interaction is appended to an
explicit trace of `Event`s, so that "is called", "is never called" and "is
called exactly once" become statements about that trace.
-/

namespace Kubectl

/-! ## Data model -/

/-- Go `error` values: `errors.New`, `errors.Wrap`, or an error handed back by a collaborator. -/
inductive Error where
  | New (msg : String)
  | Wrap (cause : Error) (msg : String)
deriving DecidableEq, Repr

deriving instance DecidableEq for Except

/-- The type `survey.QuestionOptions`, restricted to the fields the callers fill in. -/
structure QuestionOptions where
  Question : String
  DefaultValue : String
  Options : List String
deriving DecidableEq, Repr

/-- The type `generated.LastContextConfig`. -/
structure LastContextConfig where
  Namespace : String
  Context : String
deriving DecidableEq, Repr

/-- Modelled from the spec: the active cache of `generated.Config` is not part of the
sources at hand; the spec describes the persisted last target as a record that "may be
entirely absent on first run", so `LastContext` is a nullable pointer to it. -/
structure CacheConfig where
  LastContext : Option LastContextConfig
deriving DecidableEq, Repr

/-- Modelled from the spec: `generated.Config` with its `GetActive()` accessor, of which
`CheckKubeContext` only reads `GetActive().LastContext`. -/
structure Config where
  GetActive : CacheConfig
deriving DecidableEq, Repr

/-- The type `api.Context` of client-go: the cluster a context is bound to. -/
structure KubeContext where
  Cluster : String
deriving DecidableEq, Repr

/-- The type `api.Cluster` of client-go: the server endpoint. -/
structure Cluster where
  Server : String
deriving DecidableEq, Repr

/-- The type `api.Config` of client-go.  The two Go maps (`map[string]*api.Context`,
`map[string]*api.Cluster`) are their entry lists, read with `List.lookup`; a key that is
absent yields the nil pointer `none`. -/
structure KubeConfig where
  CurrentContext : String
  Contexts : List (String × KubeContext)
  Clusters : List (String × Cluster)
deriving DecidableEq, Repr

/-- The interface `kubeconfig.Loader`, restricted to `LoadRawConfig()`. -/
structure Loader where
  LoadRawConfig : Except Error KubeConfig
deriving DecidableEq

/-- A handle standing for a `clientcmd.ClientConfig`. -/
structure ClientConfig where
  id : Nat
deriving DecidableEq, Repr

/-- The type `rest.Config`, restricted to the field `NewClientFromContext` writes. -/
structure RestConfig where
  Host : String
  UserAgent : String
deriving DecidableEq, Repr

/-- A handle standing for a `kubernetes.Interface`. -/
structure KubeInterface where
  id : Nat
deriving DecidableEq, Repr

/-- The Go struct `client`.  The field `namespace` is spelled `namespaceField`, since
`namespace` is a reserved word. -/
structure client where
  Client : KubeInterface
  clientConfig : ClientConfig
  restConfig : RestConfig
  kubeLoader : Loader
  currentContext : String
  namespaceField : String
  isInCluster : Bool
deriving DecidableEq

/-- Go `func (client *client) CurrentContext() string`. -/
def client.CurrentContext (c : client) : String := c.currentContext

/-- Go `func (client *client) Namespace() string`. -/
def client.Namespace (c : client) : String := c.namespaceField

/-- Go `func (client *client) KubeConfigLoader() kubeconfig.Loader`. -/
def client.KubeConfigLoader (c : client) : Loader := c.kubeLoader

/-- Go `func (client *client) IsInCluster() bool`. -/
def client.IsInCluster (c : client) : Bool := c.isInCluster

/-- A Go return pair `(Client, error)`; `none` is `nil`. -/
structure Result where
  client : Option client
  err : Option Error
deriving DecidableEq

/-- The type `url.URL`, restricted to the host part. -/
structure URL where
  Host : String
deriving DecidableEq, Repr

/-- The type `net.IP`: a byte slice. -/
abbrev IP := List Nat

/-- A string handed to the logger: plain, or the unevaluated call `ansi.Color(text, style)`.
Keeping the call unevaluated lets the trace show which value was logged. -/
inductive Text where
  | plain (text : String)
  | color (text style : String)
deriving DecidableEq, Repr

/-- Go `ansi.Color(text, style)`. -/
def ansiColor (text style : String) : Text := .color text style

/-- The collaborators the three functions call but do not define: the package variable
`isTerminalIn`, `upgrade.GetVersion`, `util.NewClientByContext`,
`clientConfig.ClientConfig()`, `kubernetes.NewForConfig`, `url.Parse`, `(*URL).Hostname`,
`net.ParseIP` (`none` is the nil IP) and `IsPrivateIP`. -/
structure Env where
  isTerminalIn : Bool
  GetVersion : String
  NewClientByContext : String → String → Bool → Loader →
    Except Error (ClientConfig × String × String × Bool)
  RawClientConfig : ClientConfig → Except Error RestConfig
  NewForConfig : RestConfig → Except Error KubeInterface
  urlParse : String → Except Error URL
  Hostname : URL → String
  ParseIP : String → Option IP
  IsPrivateIP : IP → Bool

/-- The interface `log.Logger` as `CheckKubeContext` sees it: its level and what
`Question` replies to a given question. -/
structure Logger where
  GetLevel : Nat
  Question : QuestionOptions → Except Error String

/-- The constant `logrus.InfoLevel` (Panic 0, Fatal 1, Error 2, Warn 3, Info 4, Debug 5,
Trace 6). -/
def InfoLevel : Nat := 4

/-- The constant `metav1.NamespaceDefault`. -/
def NamespaceDefault : String := "default"

/-- The constant `time.Second`, in nanoseconds. -/
def Second : Nat := 1000000000

/-! ## Observable events -/

/-- One interaction with the outside: a call on the logger, a `time.Sleep`, or an entry
into `NewClientFromContext` (the session factory, which may switch the kube-config
context durably when `switchContext` is set). -/
inductive Event where
  | WriteString (message : String)
  | Warn (message : String)
  | Warnf (format : Text) (args : List Text)
  | Infof (format : Text) (args : List Text)
  | StartWait (message : String)
  | StopWait
  | Sleep (nanoseconds : Nat)
  | Question (params : QuestionOptions)
  | NewClientFromContext (context ns : String) (switchContext : Bool) (kubeLoader : Loader)
deriving DecidableEq

/-- Computations that append to the trace of events. -/
abbrev M := StateM (List Event)

/-- Record one event at the end of the trace. -/
def emit (e : Event) : M Unit := modify (fun t => t ++ [e])

/-- A call `log.Question(params)`: recorded, then answered by the logger. -/
def askQuestion (log : Logger) (params : QuestionOptions) : M (Except Error String) := do
  emit (.Question params)
  return log.Question params

/-- Whether an event is a call of `log.Question`. -/
def Event.isQuestion : Event → Bool
  | .Question _ => true
  | _ => false

/-- Whether an event is a call of `log.Infof`. -/
def Event.isInfof : Event → Bool
  | .Infof _ _ => true
  | _ => false

/-- Whether an event is an entry into `NewClientFromContext`. -/
def Event.isNewClient : Event → Bool
  | .NewClientFromContext _ _ _ _ => true
  | _ => false

/-! ## The functions -/

/-- Go `NewClientFromContext` (client.go, lines 123-149). -/
def NewClientFromContext (env : Env) (context ns : String) (switchContext : Bool)
    (kubeLoader : Loader) : M Result := do
  emit (.NewClientFromContext context ns switchContext kubeLoader)
  match env.NewClientByContext context ns switchContext kubeLoader with
  | .error err => return ⟨none, some err⟩
  | .ok (clientConfig, activeContext, activeNamespace, isInCluster) =>
    match env.RawClientConfig clientConfig with
    | .error err => return ⟨none, some err⟩
    | .ok restConfig =>
      let restConfig := { restConfig with UserAgent := "DevSpace Version " ++ env.GetVersion }
      match env.NewForConfig restConfig with
      | .error err => return ⟨none, some (.Wrap err "new client")⟩
      | .ok kubeClient =>
        return ⟨some {
          Client := kubeClient
          clientConfig := clientConfig
          restConfig := restConfig
          kubeLoader := kubeLoader
          namespaceField := activeNamespace
          currentContext := activeContext
          isInCluster := isInCluster }, none⟩

/-- Go `(*client).CheckKubeContext` (client.go, lines 212-305), statement by statement;
`return` leaves the function as in Go. -/
def client.CheckKubeContext (env : Env) (c : client) (generatedConfig : Option Config)
    (noWarning : Bool) (log : Logger) : M Result := do
  let mut currentConfigContext : LastContextConfig :=
    { Namespace := c.Namespace, Context := c.CurrentContext }
  let mut resetClient := false
  if let some generated := generatedConfig then
    if log.GetLevel ≥ InfoLevel && !noWarning then
      let lastConfigContext := generated.GetActive.LastContext
      if let some last := lastConfigContext then
        if last.Context != "" && last.Context != currentConfigContext.Context then
          emit (.WriteString "\n")
          emit (.Warnf (ansiColor "Are you using the correct kube context?" "white+b") [])
          emit (.Warnf (.plain "Current kube context: '%s'")
            [ansiColor currentConfigContext.Context "white+b"])
          emit (.Warnf (.plain "Last    kube context: '%s'") [ansiColor last.Context "white+b"])
          if !env.isTerminalIn then
            return ⟨some c, none⟩
          let answer ← askQuestion log
            { Question := "Which context do you want to use?"
              DefaultValue := currentConfigContext.Context
              Options := [currentConfigContext.Context, last.Context] }
          match answer with
          | .error err => return ⟨some c, some err⟩
          | .ok kc =>
            if kc != currentConfigContext.Context then
              currentConfigContext := { Context := kc, Namespace := last.Namespace }
              resetClient := true
        else if last.Namespace != "" && last.Namespace != currentConfigContext.Namespace then
          emit (.WriteString "\n")
          emit (.Warnf (ansiColor "Are you using the correct namespace?" "white+b") [])
          emit (.Warnf (.plain "Current namespace: '%s'")
            [ansiColor currentConfigContext.Namespace "white+b"])
          emit (.Warnf (.plain "Last    namespace: '%s'") [ansiColor last.Namespace "white+b"])
          if !env.isTerminalIn then
            return ⟨some c, none⟩
          let answer ← askQuestion log
            { Question := "Which namespace do you want to use?"
              DefaultValue := currentConfigContext.Namespace
              Options := [currentConfigContext.Namespace, last.Namespace] }
          match answer with
          | .error err => return ⟨some c, some err⟩
          | .ok ns =>
            if ns != currentConfigContext.Namespace then
              currentConfigContext := { currentConfigContext with Namespace := ns }
              resetClient := true
      if currentConfigContext.Namespace == NamespaceDefault &&
          (match lastConfigContext with
            | none => true
            | some last => last.Namespace != NamespaceDefault) then
        emit (.Warn ("Deploying into the 'default' namespace is usually not a good idea " ++
          "as this namespace cannot be deleted\n"))
        emit (.StartWait "Will continue in 5 seconds...")
        emit (.Sleep (5 * Second))
        emit .StopWait
  emit (.Infof (.plain "Using namespace '%s'")
    [ansiColor currentConfigContext.Namespace "white+b"])
  emit (.Infof (.plain "Using kube context '%s'")
    [ansiColor currentConfigContext.Context "white+b"])
  if resetClient then
    return ← NewClientFromContext env currentConfigContext.Context
      currentConfigContext.Namespace true c.kubeLoader
  return ⟨some c, none⟩

/-- How a call of `NewClientBySelect` ends: it returns its pair, it dereferences a nil
pointer (a chosen context or its cluster is missing from the kube config), or it is still
waiting at the prompt because the user gave no further answer. -/
inductive Outcome where
  | returned (r : Result)
  | nilPointerDereference
  | awaitingAnswer
deriving DecidableEq

/-- The `for` loop of `NewClientBySelect` (client.go, lines 168-198).  `answers` are the
replies `log.Question` gives, call after call; `continue` is the recursive call on the
remaining answers. -/
def selectLoop (env : Env) (allowPrivate switchContext : Bool) (kubeLoader : Loader)
    (kubeConfig : KubeConfig) (options : List String) :
    List (Except Error String) → M Outcome
  | [] => do
    emit (.Question
      { Question := "Which kube context do you want to use"
        DefaultValue := kubeConfig.CurrentContext
        Options := options })
    return .awaitingAnswer
  | answer :: answers => do
    emit (.Question
      { Question := "Which kube context do you want to use"
        DefaultValue := kubeConfig.CurrentContext
        Options := options })
    match answer with
    | .error err => return .returned ⟨none, some err⟩
    | .ok kubeContext =>
      if !allowPrivate then
        match kubeConfig.Contexts.lookup kubeContext with
        | none => return .nilPointerDereference
        | some context =>
          match kubeConfig.Clusters.lookup context.Cluster with
          | none => return .nilPointerDereference
          | some cluster =>
            match env.urlParse cluster.Server with
            | .error err => return .returned ⟨none, some (.Wrap err "url parse")⟩
            | .ok url =>
              if let some ip := env.ParseIP (env.Hostname url) then
                if env.IsPrivateIP ip then
                  emit (.Infof (.plain "Clusters with private ips (%s) cannot be used")
                    [.plain (env.Hostname url)])
                  return ← selectLoop env allowPrivate switchContext kubeLoader kubeConfig
                    options answers
      return .returned (← NewClientFromContext env kubeContext "" switchContext kubeLoader)

/-- Go `NewClientBySelect` (client.go, lines 152-199).  The keys of the map
`kubeConfig.Contexts` are the first components of its entry list, each taken once;
`sort.Strings` is an insertion sort by the order on strings. -/
def NewClientBySelect (env : Env) (allowPrivate switchContext : Bool) (kubeLoader : Loader)
    (answers : List (Except Error String)) : M Outcome := do
  match kubeLoader.LoadRawConfig with
  | .error err => return .returned ⟨none, some err⟩
  | .ok kubeConfig =>
    let options := (kubeConfig.Contexts.map Prod.fst).dedup
    if options.length == 0 then
      return .returned ⟨none, some (.New ("No kubectl context found. Make sure kubectl is " ++
        "installed and you have a working kubernetes context configured"))⟩
    let options := options.insertionSort (fun a b => a ≤ b)
    selectLoop env allowPrivate switchContext kubeLoader kubeConfig options answers

/-- Run a computation from the empty trace: its result and the events it produced. -/
def run {α : Type} (m : M α) : α × List Event := m.run []

/-! ## Named pieces of the trace, used to state the theorems -/

/-- The four logger calls of lines 230-233 (context drift). -/
def contextWarning (c : client) (last : LastContextConfig) : List Event :=
  [.WriteString "\n",
   .Warnf (ansiColor "Are you using the correct kube context?" "white+b") [],
   .Warnf (.plain "Current kube context: '%s'") [ansiColor c.CurrentContext "white+b"],
   .Warnf (.plain "Last    kube context: '%s'") [ansiColor last.Context "white+b"]]

/-- The question of lines 240-247: current context or last context, default current. -/
def contextQuestion (c : client) (last : LastContextConfig) : QuestionOptions :=
  { Question := "Which context do you want to use?"
    DefaultValue := c.CurrentContext
    Options := [c.CurrentContext, last.Context] }

/-- The four logger calls of lines 258-261 (namespace drift). -/
def namespaceWarning (c : client) (last : LastContextConfig) : List Event :=
  [.WriteString "\n",
   .Warnf (ansiColor "Are you using the correct namespace?" "white+b") [],
   .Warnf (.plain "Current namespace: '%s'") [ansiColor c.Namespace "white+b"],
   .Warnf (.plain "Last    namespace: '%s'") [ansiColor last.Namespace "white+b"]]

/-- The question of lines 268-275: current namespace or last namespace, default current. -/
def namespaceQuestion (c : client) (last : LastContextConfig) : QuestionOptions :=
  { Question := "Which namespace do you want to use?"
    DefaultValue := c.Namespace
    Options := [c.Namespace, last.Namespace] }

/-- The warning and the five-second wait of lines 290-293. -/
def defaultNamespaceWarning : List Event :=
  [.Warn ("Deploying into the 'default' namespace is usually not a good idea " ++
     "as this namespace cannot be deleted\n"),
   .StartWait "Will continue in 5 seconds...",
   .Sleep (5 * Second),
   .StopWait]

/-- The two final info lines of lines 298-299, for a resolved namespace and context. -/
def usingInfo (ns context : String) : List Event :=
  [.Infof (.plain "Using namespace '%s'") [ansiColor ns "white+b"],
   .Infof (.plain "Using kube context '%s'") [ansiColor context "white+b"]]

/-- The last target the drift check of lines 219-284 looks at: none when the generated
config is nil, the log level is below Info, warnings are suppressed, or nothing was
recorded. -/
def lastTarget (generatedConfig : Option Config) (noWarning : Bool) (log : Logger) :
    Option LastContextConfig :=
  match generatedConfig with
  | none => none
  | some generated =>
    if InfoLevel ≤ log.GetLevel ∧ noWarning = false then generated.GetActive.LastContext
    else none

/-- The question a call asks once it has detected drift, if it detects any: the context
question on a context mismatch, otherwise the namespace question on a namespace mismatch. -/
def driftQuestion (c : client) (last : Option LastContextConfig) : Option QuestionOptions :=
  match last with
  | none => none
  | some last =>
    if last.Context ≠ "" ∧ last.Context ≠ c.CurrentContext then some (contextQuestion c last)
    else if last.Namespace ≠ "" ∧ last.Namespace ≠ c.Namespace then
      some (namespaceQuestion c last)
    else none

/-- Whether a call returns early (lines 236-238, 248-250, 264-266, 276-278): drift is
detected and either the terminal is not interactive or the prompt fails. -/
def returnsEarly (env : Env) (c : client) (generatedConfig : Option Config) (noWarning : Bool)
    (log : Logger) : Bool :=
  match driftQuestion c (lastTarget generatedConfig noWarning log) with
  | none => false
  | some q =>
    !env.isTerminalIn ||
      (match log.Question q with
        | .error _ => true
        | .ok _ => false)

/-- The options `NewClientBySelect` offers: the context names, sorted. -/
def offeredOptions (kubeConfig : KubeConfig) : List String :=
  ((kubeConfig.Contexts.map Prod.fst).dedup).insertionSort (fun a b => a ≤ b)

/-- The question of lines 169-173. -/
def selectQuestion (kubeConfig : KubeConfig) : QuestionOptions :=
  { Question := "Which kube context do you want to use"
    DefaultValue := kubeConfig.CurrentContext
    Options := offeredOptions kubeConfig }

/-- The host of the server URL of the cluster a context is bound to, when the context and
its cluster exist and the URL parses. -/
def serverHost (env : Env) (kubeConfig : KubeConfig) (context : String) : Option String :=
  match kubeConfig.Contexts.lookup context with
  | none => none
  | some ctx =>
    match kubeConfig.Clusters.lookup ctx.Cluster with
    | none => none
    | some cluster =>
      match env.urlParse cluster.Server with
      | .error _ => none
      | .ok url => some (env.Hostname url)

/-- A host that is a literal IP for which `IsPrivateIP` holds. -/
def isPrivateHost (env : Env) (host : String) : Bool :=
  match env.ParseIP host with
  | none => false
  | some ip => env.IsPrivateIP ip

/-- The events of one rejected answer: the question, then the info line naming the host. -/
def rejection (kubeConfig : KubeConfig) (host : String) : List Event :=
  [.Question (selectQuestion kubeConfig),
   .Infof (.plain "Clusters with private ips (%s) cannot be used") [.plain host]]

/-- The events of a run of rejected answers, one `rejection` per answer. -/
def rejections (env : Env) (kubeConfig : KubeConfig) : List (Except Error String) → List Event
  | [] => []
  | .ok name :: rest =>
    rejection kubeConfig ((serverHost env kubeConfig name).getD "") ++
      rejections env kubeConfig rest
  | .error _ :: rest => rejections env kubeConfig rest

/-! ## Sample inputs -/

/-- A sample environment: every construction step succeeds, a server string is its own
host, `10.0.0.1` is the one literal IP and it is private. -/
def sampleEnv (interactive : Bool) : Env :=
  { isTerminalIn := interactive
    GetVersion := "5.0.0"
    NewClientByContext := fun context ns _ _ => .ok (⟨0⟩, context, ns, false)
    RawClientConfig := fun _ => .ok ⟨"", ""⟩
    NewForConfig := fun _ => .ok ⟨1⟩
    urlParse := fun s => .ok ⟨s⟩
    Hostname := fun u => u.Host
    ParseIP := fun s => if s = "10.0.0.1" then some [10, 0, 0, 1] else none
    IsPrivateIP := fun ip => ip.head? == some 10 }

/-- A sample kube config: context `home` on a private address, context `work` on a named host. -/
def sampleKubeConfig : KubeConfig :=
  { CurrentContext := "work"
    Contexts := [("work", ⟨"c-work"⟩), ("home", ⟨"c-home"⟩)]
    Clusters := [("c-home", ⟨"10.0.0.1"⟩), ("c-work", ⟨"k8s.example.com"⟩)] }

/-- A sample loader returning `sampleKubeConfig`. -/
def sampleLoader : Loader := ⟨.ok sampleKubeConfig⟩

/-- A sample session on a given context and namespace. -/
def sampleClient (context ns : String) : client :=
  { Client := ⟨0⟩
    clientConfig := ⟨0⟩
    restConfig := ⟨"", ""⟩
    kubeLoader := sampleLoader
    currentContext := context
    namespaceField := ns
    isInCluster := false }

/-- A sample logger at Info level that gives one fixed reply. -/
def sampleLogger (reply : Except Error String) : Logger := ⟨4, fun _ => reply⟩

/-- A sample logger at Info level whose user always picks the last option offered. -/
def sampleChooser : Logger :=
  ⟨4, fun q =>
    match q.Options.reverse with
    | [] => .error (.New "nothing to choose from")
    | a :: _ => .ok a⟩

/-- A sample generated config holding a last target. -/
def sampleGenerated (last : Option LastContextConfig) : Config := ⟨⟨last⟩⟩

/-! ## The session factory leaves one event -/

theorem NewClientFromContext_run (env : Env) (a b : String) (s : Bool) (l : Loader)
    (t : List Event) :
    (NewClientFromContext env a b s l).run t =
      ((run (NewClientFromContext env a b s l)).1, t ++ [.NewClientFromContext a b s l]) := by
  cases h1 : env.NewClientByContext a b s l with
  | error e =>
    simp [run, NewClientFromContext, emit, StateT.run, bind, StateT.bind, modify, modifyGet,
      MonadStateOf.modifyGet, StateT.modifyGet, pure, StateT.pure, h1]
  | ok v =>
    obtain ⟨cc, ac, an, ic⟩ := v
    cases h2 : env.RawClientConfig cc with
    | error e =>
      simp [run, NewClientFromContext, emit, StateT.run, bind, StateT.bind, modify, modifyGet,
        MonadStateOf.modifyGet, StateT.modifyGet, pure, StateT.pure, h1, h2]
    | ok rc =>
      cases h3 : env.NewForConfig
          { rc with UserAgent := "DevSpace Version " ++ env.GetVersion } with
      | error e =>
        simp [run, NewClientFromContext, emit, StateT.run, bind, StateT.bind, modify, modifyGet,
          MonadStateOf.modifyGet, StateT.modifyGet, pure, StateT.pure, h1, h2, h3]
      | ok k =>
        simp [run, NewClientFromContext, emit, StateT.run, bind, StateT.bind, modify, modifyGet,
          MonadStateOf.modifyGet, StateT.modifyGet, pure, StateT.pure, h1, h2, h3]

/-! ## `CheckKubeContext`, path by path -/

/-- Path: no generated config. -/
theorem CheckKubeContext_nil (env : Env) (c : client) (noWarning : Bool) (log : Logger) :
    run (c.CheckKubeContext env none noWarning log) =
      (⟨some c, none⟩, usingInfo c.Namespace c.CurrentContext) := by
  simp [run, client.CheckKubeContext, usingInfo, contextWarning, contextQuestion,
    namespaceWarning, namespaceQuestion, defaultNamespaceWarning, askQuestion, emit, StateT.run,
    bind, StateT.bind, modify, modifyGet, MonadStateOf.modifyGet, StateT.modifyGet, pure,
    StateT.pure, client.CurrentContext, client.Namespace]

/-- Path: warnings suppressed or log level below Info. -/
theorem CheckKubeContext_quiet (env : Env) (c : client) (g : Config) (noWarning : Bool)
    (log : Logger) (h : ¬ (InfoLevel ≤ log.GetLevel ∧ noWarning = false)) :
    run (c.CheckKubeContext env (some g) noWarning log) =
      (⟨some c, none⟩, usingInfo c.Namespace c.CurrentContext) := by
  by_cases h1 : InfoLevel ≤ log.GetLevel
  · have h2 : noWarning = true := by
      cases noWarning
      · exact absurd ⟨h1, rfl⟩ h
      · rfl
    simp [run, client.CheckKubeContext, usingInfo, contextWarning, contextQuestion,
    namespaceWarning, namespaceQuestion, defaultNamespaceWarning, askQuestion, emit, StateT.run,
    bind, StateT.bind, modify, modifyGet, MonadStateOf.modifyGet, StateT.modifyGet, pure,
    StateT.pure, client.CurrentContext, client.Namespace, h2]
  · simp [run, client.CheckKubeContext, usingInfo, contextWarning, contextQuestion,
    namespaceWarning, namespaceQuestion, defaultNamespaceWarning, askQuestion, emit, StateT.run,
    bind, StateT.bind, modify, modifyGet, MonadStateOf.modifyGet, StateT.modifyGet, pure,
    StateT.pure, client.CurrentContext, client.Namespace, h1]

/-- Path: warnings active, no last target recorded. -/
theorem CheckKubeContext_noLast (env : Env) (c : client) (g : Config) (log : Logger)
    (hlast : g.GetActive.LastContext = none) (hlevel : InfoLevel ≤ log.GetLevel) :
    run (c.CheckKubeContext env (some g) false log) =
      (⟨some c, none⟩,
        (if c.Namespace = NamespaceDefault then defaultNamespaceWarning else []) ++
          usingInfo c.Namespace c.CurrentContext) := by
  by_cases hd : c.namespaceField = NamespaceDefault <;>
  simp_all [run, client.CheckKubeContext, usingInfo, contextWarning, contextQuestion,
    namespaceWarning, namespaceQuestion, defaultNamespaceWarning, askQuestion, emit, StateT.run,
    bind, StateT.bind, modify, modifyGet, MonadStateOf.modifyGet, StateT.modifyGet, pure,
    StateT.pure, client.CurrentContext, client.Namespace]

/-- Path: warnings active, last target recorded, neither context nor namespace drift. -/
theorem CheckKubeContext_noDrift (env : Env) (c : client) (g : Config) (log : Logger)
    (last : LastContextConfig)
    (hlast : g.GetActive.LastContext = some last) (hlevel : InfoLevel ≤ log.GetLevel)
    (hctx : last.Context = "" ∨ last.Context = c.CurrentContext)
    (hns : last.Namespace = "" ∨ last.Namespace = c.Namespace) :
    run (c.CheckKubeContext env (some g) false log) =
      (⟨some c, none⟩,
        (if c.Namespace = NamespaceDefault ∧ last.Namespace ≠ NamespaceDefault
          then defaultNamespaceWarning else []) ++
          usingInfo c.Namespace c.CurrentContext) := by
  by_cases hd : c.namespaceField = NamespaceDefault <;>
  by_cases hl : last.Namespace = NamespaceDefault <;>
  rcases hctx with hctx | hctx <;> rcases hns with hns | hns <;>
  simp_all [run, client.CheckKubeContext, usingInfo, contextWarning, contextQuestion,
    namespaceWarning, namespaceQuestion, defaultNamespaceWarning, askQuestion, emit, StateT.run,
    bind, StateT.bind, modify, modifyGet, MonadStateOf.modifyGet, StateT.modifyGet, pure,
    StateT.pure, client.CurrentContext, client.Namespace]

/-- Path: context drift on a terminal that is not interactive. -/
theorem CheckKubeContext_contextBail (env : Env) (c : client) (g : Config) (log : Logger)
    (last : LastContextConfig)
    (hlast : g.GetActive.LastContext = some last) (hlevel : InfoLevel ≤ log.GetLevel)
    (hne : last.Context ≠ "") (hdiff : last.Context ≠ c.CurrentContext)
    (hterm : env.isTerminalIn = false) :
    run (c.CheckKubeContext env (some g) false log) =
      (⟨some c, none⟩, contextWarning c last) := by
  simp_all [run, client.CheckKubeContext, usingInfo, contextWarning, contextQuestion,
    namespaceWarning, namespaceQuestion, defaultNamespaceWarning, askQuestion, emit, StateT.run,
    bind, StateT.bind, modify, modifyGet, MonadStateOf.modifyGet, StateT.modifyGet, pure,
    StateT.pure, client.CurrentContext, client.Namespace]

/-- Path: context drift, the prompt fails. -/
theorem CheckKubeContext_contextError (env : Env) (c : client) (g : Config) (log : Logger)
    (last : LastContextConfig) (err : Error)
    (hlast : g.GetActive.LastContext = some last) (hlevel : InfoLevel ≤ log.GetLevel)
    (hne : last.Context ≠ "") (hdiff : last.Context ≠ c.CurrentContext)
    (hterm : env.isTerminalIn = true)
    (hq : log.Question (contextQuestion c last) = .error err) :
    run (c.CheckKubeContext env (some g) false log) =
      (⟨some c, some err⟩, contextWarning c last ++ [.Question (contextQuestion c last)]) := by
  simp_all [run, client.CheckKubeContext, usingInfo, contextWarning, contextQuestion,
    namespaceWarning, namespaceQuestion, defaultNamespaceWarning, askQuestion, emit, StateT.run,
    bind, StateT.bind, modify, modifyGet, MonadStateOf.modifyGet, StateT.modifyGet, pure,
    StateT.pure, client.CurrentContext, client.Namespace]

/-- Path: context drift, answered with the current context. -/
theorem CheckKubeContext_contextKeep (env : Env) (c : client) (g : Config) (log : Logger)
    (last : LastContextConfig)
    (hlast : g.GetActive.LastContext = some last) (hlevel : InfoLevel ≤ log.GetLevel)
    (hne : last.Context ≠ "") (hdiff : last.Context ≠ c.CurrentContext)
    (hterm : env.isTerminalIn = true)
    (hq : log.Question (contextQuestion c last) = .ok c.CurrentContext) :
    run (c.CheckKubeContext env (some g) false log) =
      (⟨some c, none⟩,
        contextWarning c last ++ [.Question (contextQuestion c last)] ++
          (if c.Namespace = NamespaceDefault ∧ last.Namespace ≠ NamespaceDefault
            then defaultNamespaceWarning else []) ++
          usingInfo c.Namespace c.CurrentContext) := by
  by_cases hd : c.namespaceField = NamespaceDefault <;>
  by_cases hl : last.Namespace = NamespaceDefault <;>
  simp_all [run, client.CheckKubeContext, usingInfo, contextWarning, contextQuestion,
    namespaceWarning, namespaceQuestion, defaultNamespaceWarning, askQuestion, emit, StateT.run,
    bind, StateT.bind, modify, modifyGet, MonadStateOf.modifyGet, StateT.modifyGet, pure,
    StateT.pure, client.CurrentContext, client.Namespace]

/-- Path: context drift, answered with another context. -/
theorem CheckKubeContext_contextSwitch (env : Env) (c : client) (g : Config) (log : Logger)
    (last : LastContextConfig) (kc : String)
    (hlast : g.GetActive.LastContext = some last) (hlevel : InfoLevel ≤ log.GetLevel)
    (hne : last.Context ≠ "") (hdiff : last.Context ≠ c.CurrentContext)
    (hterm : env.isTerminalIn = true)
    (hq : log.Question (contextQuestion c last) = .ok kc) (hkc : kc ≠ c.CurrentContext) :
    run (c.CheckKubeContext env (some g) false log) =
      ((run (NewClientFromContext env kc last.Namespace true c.kubeLoader)).1,
        contextWarning c last ++ [.Question (contextQuestion c last)] ++
          usingInfo last.Namespace kc ++
          [.NewClientFromContext kc last.Namespace true c.kubeLoader]) := by
  have hrun := fun t => NewClientFromContext_run env kc last.Namespace true c.kubeLoader t
  generalize hr : (run (NewClientFromContext env kc last.Namespace true c.kubeLoader)).1 = r
    at hrun ⊢
  clear hr
  simp only [StateT.run] at hrun
  simp_all [run, client.CheckKubeContext, usingInfo, contextWarning, contextQuestion,
    namespaceWarning, namespaceQuestion, defaultNamespaceWarning, askQuestion, emit, StateT.run,
    bind, StateT.bind, modify, modifyGet, MonadStateOf.modifyGet, StateT.modifyGet, pure,
    StateT.pure, client.CurrentContext, client.Namespace]

/-- Path: namespace drift on a terminal that is not interactive. -/
theorem CheckKubeContext_namespaceBail (env : Env) (c : client) (g : Config) (log : Logger)
    (last : LastContextConfig)
    (hlast : g.GetActive.LastContext = some last) (hlevel : InfoLevel ≤ log.GetLevel)
    (hctx : last.Context = "" ∨ last.Context = c.CurrentContext)
    (hne : last.Namespace ≠ "") (hdiff : last.Namespace ≠ c.Namespace)
    (hterm : env.isTerminalIn = false) :
    run (c.CheckKubeContext env (some g) false log) =
      (⟨some c, none⟩, namespaceWarning c last) := by
  rcases hctx with hctx | hctx <;>
  simp_all [run, client.CheckKubeContext, usingInfo, contextWarning, contextQuestion,
    namespaceWarning, namespaceQuestion, defaultNamespaceWarning, askQuestion, emit, StateT.run,
    bind, StateT.bind, modify, modifyGet, MonadStateOf.modifyGet, StateT.modifyGet, pure,
    StateT.pure, client.CurrentContext, client.Namespace]

/-- Path: namespace drift, the prompt fails. -/
theorem CheckKubeContext_namespaceError (env : Env) (c : client) (g : Config) (log : Logger)
    (last : LastContextConfig) (err : Error)
    (hlast : g.GetActive.LastContext = some last) (hlevel : InfoLevel ≤ log.GetLevel)
    (hctx : last.Context = "" ∨ last.Context = c.CurrentContext)
    (hne : last.Namespace ≠ "") (hdiff : last.Namespace ≠ c.Namespace)
    (hterm : env.isTerminalIn = true)
    (hq : log.Question (namespaceQuestion c last) = .error err) :
    run (c.CheckKubeContext env (some g) false log) =
      (⟨some c, some err⟩,
        namespaceWarning c last ++ [.Question (namespaceQuestion c last)]) := by
  rcases hctx with hctx | hctx <;>
  simp_all [run, client.CheckKubeContext, usingInfo, contextWarning, contextQuestion,
    namespaceWarning, namespaceQuestion, defaultNamespaceWarning, askQuestion, emit, StateT.run,
    bind, StateT.bind, modify, modifyGet, MonadStateOf.modifyGet, StateT.modifyGet, pure,
    StateT.pure, client.CurrentContext, client.Namespace]

/-- Path: namespace drift, answered with the current namespace. -/
theorem CheckKubeContext_namespaceKeep (env : Env) (c : client) (g : Config) (log : Logger)
    (last : LastContextConfig)
    (hlast : g.GetActive.LastContext = some last) (hlevel : InfoLevel ≤ log.GetLevel)
    (hctx : last.Context = "" ∨ last.Context = c.CurrentContext)
    (hne : last.Namespace ≠ "") (hdiff : last.Namespace ≠ c.Namespace)
    (hterm : env.isTerminalIn = true)
    (hq : log.Question (namespaceQuestion c last) = .ok c.Namespace) :
    run (c.CheckKubeContext env (some g) false log) =
      (⟨some c, none⟩,
        namespaceWarning c last ++ [.Question (namespaceQuestion c last)] ++
          (if c.Namespace = NamespaceDefault ∧ last.Namespace ≠ NamespaceDefault
            then defaultNamespaceWarning else []) ++
          usingInfo c.Namespace c.CurrentContext) := by
  by_cases hd : c.namespaceField = NamespaceDefault <;>
  by_cases hl : last.Namespace = NamespaceDefault <;>
  rcases hctx with hctx | hctx <;>
  simp_all [run, client.CheckKubeContext, usingInfo, contextWarning, contextQuestion,
    namespaceWarning, namespaceQuestion, defaultNamespaceWarning, askQuestion, emit, StateT.run,
    bind, StateT.bind, modify, modifyGet, MonadStateOf.modifyGet, StateT.modifyGet, pure,
    StateT.pure, client.CurrentContext, client.Namespace]

/-- Path: namespace drift, answered with another namespace. -/
theorem CheckKubeContext_namespaceSwitch (env : Env) (c : client) (g : Config) (log : Logger)
    (last : LastContextConfig) (ns : String)
    (hlast : g.GetActive.LastContext = some last) (hlevel : InfoLevel ≤ log.GetLevel)
    (hctx : last.Context = "" ∨ last.Context = c.CurrentContext)
    (hne : last.Namespace ≠ "") (hdiff : last.Namespace ≠ c.Namespace)
    (hterm : env.isTerminalIn = true)
    (hq : log.Question (namespaceQuestion c last) = .ok ns) (hns : ns ≠ c.Namespace) :
    run (c.CheckKubeContext env (some g) false log) =
      ((run (NewClientFromContext env c.CurrentContext ns true c.kubeLoader)).1,
        namespaceWarning c last ++ [.Question (namespaceQuestion c last)] ++
          (if ns = NamespaceDefault ∧ last.Namespace ≠ NamespaceDefault
            then defaultNamespaceWarning else []) ++
          usingInfo ns c.CurrentContext ++
          [.NewClientFromContext c.CurrentContext ns true c.kubeLoader]) := by
  have hrun := fun t => NewClientFromContext_run env c.CurrentContext ns true c.kubeLoader t
  generalize hr : (run (NewClientFromContext env c.CurrentContext ns true c.kubeLoader)).1 = r
    at hrun ⊢
  clear hr
  simp only [StateT.run, client.CurrentContext] at hrun
  rcases hctx with hctx | hctx
  · simp_all [run, client.CheckKubeContext, usingInfo, contextWarning, contextQuestion,
    namespaceWarning, namespaceQuestion, defaultNamespaceWarning, askQuestion, emit, StateT.run,
    bind, StateT.bind, modify, modifyGet, MonadStateOf.modifyGet, StateT.modifyGet, pure,
    StateT.pure, client.CurrentContext, client.Namespace]
    split <;> simp_all [StateT.bind, StateT.modifyGet, StateT.pure]
  · simp_all [run, client.CheckKubeContext, usingInfo, contextWarning, contextQuestion,
    namespaceWarning, namespaceQuestion, defaultNamespaceWarning, askQuestion, emit, StateT.run,
    bind, StateT.bind, modify, modifyGet, MonadStateOf.modifyGet, StateT.modifyGet, pure,
    StateT.pure, client.CurrentContext, client.Namespace]
    split <;> simp_all [StateT.bind, StateT.modifyGet, StateT.pure]

/-- Every call of `CheckKubeContext` follows exactly one of the paths above. -/
theorem CheckKubeContext_paths (env : Env) (c : client) (generatedConfig : Option Config)
    (noWarning : Bool) (log : Logger) :
    ((generatedConfig = none ∨ ¬ (InfoLevel ≤ log.GetLevel ∧ noWarning = false)) ∧
      run (c.CheckKubeContext env generatedConfig noWarning log) =
        (⟨some c, none⟩, usingInfo c.Namespace c.CurrentContext)) ∨
    ∃ g, generatedConfig = some g ∧ InfoLevel ≤ log.GetLevel ∧ noWarning = false ∧
      ((g.GetActive.LastContext = none ∧
        run (c.CheckKubeContext env generatedConfig noWarning log) =
          (⟨some c, none⟩,
            (if c.Namespace = NamespaceDefault then defaultNamespaceWarning else []) ++
              usingInfo c.Namespace c.CurrentContext)) ∨
      ∃ last, g.GetActive.LastContext = some last ∧
        (((last.Context = "" ∨ last.Context = c.CurrentContext) ∧
          (last.Namespace = "" ∨ last.Namespace = c.Namespace) ∧
          run (c.CheckKubeContext env generatedConfig noWarning log) =
            (⟨some c, none⟩,
              (if c.Namespace = NamespaceDefault ∧ last.Namespace ≠ NamespaceDefault
                then defaultNamespaceWarning else []) ++
                usingInfo c.Namespace c.CurrentContext)) ∨
        (last.Context ≠ "" ∧ last.Context ≠ c.CurrentContext ∧
          ((env.isTerminalIn = false ∧
            run (c.CheckKubeContext env generatedConfig noWarning log) =
              (⟨some c, none⟩, contextWarning c last)) ∨
          (env.isTerminalIn = true ∧
            ((∃ err, log.Question (contextQuestion c last) = .error err ∧
              run (c.CheckKubeContext env generatedConfig noWarning log) =
                (⟨some c, some err⟩,
                  contextWarning c last ++ [.Question (contextQuestion c last)])) ∨
            (log.Question (contextQuestion c last) = .ok c.CurrentContext ∧
              run (c.CheckKubeContext env generatedConfig noWarning log) =
                (⟨some c, none⟩,
                  contextWarning c last ++ [.Question (contextQuestion c last)] ++
                    (if c.Namespace = NamespaceDefault ∧ last.Namespace ≠ NamespaceDefault
                      then defaultNamespaceWarning else []) ++
                    usingInfo c.Namespace c.CurrentContext)) ∨
            (∃ kc, log.Question (contextQuestion c last) = .ok kc ∧ kc ≠ c.CurrentContext ∧
              run (c.CheckKubeContext env generatedConfig noWarning log) =
                ((run (NewClientFromContext env kc last.Namespace true c.kubeLoader)).1,
                  contextWarning c last ++ [.Question (contextQuestion c last)] ++
                    usingInfo last.Namespace kc ++
                    [.NewClientFromContext kc last.Namespace true c.kubeLoader])))))) ∨
        ((last.Context = "" ∨ last.Context = c.CurrentContext) ∧
          last.Namespace ≠ "" ∧ last.Namespace ≠ c.Namespace ∧
          ((env.isTerminalIn = false ∧
            run (c.CheckKubeContext env generatedConfig noWarning log) =
              (⟨some c, none⟩, namespaceWarning c last)) ∨
          (env.isTerminalIn = true ∧
            ((∃ err, log.Question (namespaceQuestion c last) = .error err ∧
              run (c.CheckKubeContext env generatedConfig noWarning log) =
                (⟨some c, some err⟩,
                  namespaceWarning c last ++ [.Question (namespaceQuestion c last)])) ∨
            (log.Question (namespaceQuestion c last) = .ok c.Namespace ∧
              run (c.CheckKubeContext env generatedConfig noWarning log) =
                (⟨some c, none⟩,
                  namespaceWarning c last ++ [.Question (namespaceQuestion c last)] ++
                    (if c.Namespace = NamespaceDefault ∧ last.Namespace ≠ NamespaceDefault
                      then defaultNamespaceWarning else []) ++
                    usingInfo c.Namespace c.CurrentContext)) ∨
            (∃ ns, log.Question (namespaceQuestion c last) = .ok ns ∧ ns ≠ c.Namespace ∧
              run (c.CheckKubeContext env generatedConfig noWarning log) =
                ((run (NewClientFromContext env c.CurrentContext ns true c.kubeLoader)).1,
                  namespaceWarning c last ++ [.Question (namespaceQuestion c last)] ++
                    (if ns = NamespaceDefault ∧ last.Namespace ≠ NamespaceDefault
                      then defaultNamespaceWarning else []) ++
                    usingInfo ns c.CurrentContext ++
                    [.NewClientFromContext c.CurrentContext ns true c.kubeLoader])))))))) := by
  cases generatedConfig with
  | none => exact Or.inl ⟨Or.inl rfl, CheckKubeContext_nil env c noWarning log⟩
  | some g =>
    by_cases hact : InfoLevel ≤ log.GetLevel ∧ noWarning = false
    swap
    · exact Or.inl ⟨Or.inr hact, CheckKubeContext_quiet env c g noWarning log hact⟩
    obtain ⟨hlevel, hnw⟩ := hact
    subst hnw
    refine Or.inr ⟨g, rfl, hlevel, rfl, ?_⟩
    cases hlast : g.GetActive.LastContext with
    | none => exact Or.inl ⟨rfl, CheckKubeContext_noLast env c g log hlast hlevel⟩
    | some last =>
      refine Or.inr ⟨last, rfl, ?_⟩
      have hterm : env.isTerminalIn = false ∨ env.isTerminalIn = true := by
        cases env.isTerminalIn <;> simp
      by_cases hctx : last.Context ≠ "" ∧ last.Context ≠ c.CurrentContext
      · obtain ⟨hne, hdiff⟩ := hctx
        refine Or.inr (Or.inl ⟨hne, hdiff, ?_⟩)
        rcases hterm with hterm | hterm
        · exact Or.inl ⟨hterm, CheckKubeContext_contextBail env c g log last hlast hlevel hne
            hdiff hterm⟩
        · refine Or.inr ⟨hterm, ?_⟩
          cases hq : log.Question (contextQuestion c last) with
          | error err =>
            exact Or.inl ⟨err, rfl, CheckKubeContext_contextError env c g log last err hlast
              hlevel hne hdiff hterm hq⟩
          | ok kc =>
            by_cases hkc : kc = c.CurrentContext
            · subst hkc
              exact Or.inr (Or.inl ⟨rfl, CheckKubeContext_contextKeep env c g log last hlast
                hlevel hne hdiff hterm hq⟩)
            · exact Or.inr (Or.inr ⟨kc, rfl, hkc, CheckKubeContext_contextSwitch env c g log
                last kc hlast hlevel hne hdiff hterm hq hkc⟩)
      · have hctx2 : last.Context = "" ∨ last.Context = c.CurrentContext := by
          by_cases h1 : last.Context = ""
          · exact Or.inl h1
          · by_cases h2 : last.Context = c.CurrentContext
            · exact Or.inr h2
            · exact absurd ⟨h1, h2⟩ hctx
        by_cases hns : last.Namespace ≠ "" ∧ last.Namespace ≠ c.Namespace
        · obtain ⟨hne, hdiff⟩ := hns
          refine Or.inr (Or.inr ⟨hctx2, hne, hdiff, ?_⟩)
          rcases hterm with hterm | hterm
          · exact Or.inl ⟨hterm, CheckKubeContext_namespaceBail env c g log last hlast hlevel
              hctx2 hne hdiff hterm⟩
          · refine Or.inr ⟨hterm, ?_⟩
            cases hq : log.Question (namespaceQuestion c last) with
            | error err =>
              exact Or.inl ⟨err, rfl, CheckKubeContext_namespaceError env c g log last err
                hlast hlevel hctx2 hne hdiff hterm hq⟩
            | ok ns =>
              by_cases hk : ns = c.Namespace
              · subst hk
                exact Or.inr (Or.inl ⟨rfl, CheckKubeContext_namespaceKeep env c g log last
                  hlast hlevel hctx2 hne hdiff hterm hq⟩)
              · exact Or.inr (Or.inr ⟨ns, rfl, hk, CheckKubeContext_namespaceSwitch env c g
                  log last ns hlast hlevel hctx2 hne hdiff hterm hq hk⟩)
        · have hns2 : last.Namespace = "" ∨ last.Namespace = c.Namespace := by
            by_cases h1 : last.Namespace = ""
            · exact Or.inl h1
            · by_cases h2 : last.Namespace = c.Namespace
              · exact Or.inr h2
              · exact absurd ⟨h1, h2⟩ hns
          exact Or.inl ⟨hctx2, hns2, CheckKubeContext_noDrift env c g log last hlast hlevel
            hctx2 hns2⟩

/-! ## The selection loop, one answer at a time -/

/-- Out of answers, the loop has asked its question and waits. -/
theorem selectLoop_nil (env : Env) (allowPrivate switchContext : Bool) (kubeLoader : Loader)
    (kubeConfig : KubeConfig) (t : List Event) :
    (selectLoop env allowPrivate switchContext kubeLoader kubeConfig
        (offeredOptions kubeConfig) []).run t =
      (.awaitingAnswer, t ++ [.Question (selectQuestion kubeConfig)]) := by
  simp [selectQuestion, selectLoop, emit, bind, StateT.bind, modify, modifyGet,
    MonadStateOf.modifyGet, StateT.modifyGet, pure, StateT.pure, StateT.run]

/-- A failing prompt ends the loop with the error. -/
theorem selectLoop_error (env : Env) (allowPrivate switchContext : Bool) (kubeLoader : Loader)
    (kubeConfig : KubeConfig) (err : Error) (answers : List (Except Error String))
    (t : List Event) :
    (selectLoop env allowPrivate switchContext kubeLoader kubeConfig
        (offeredOptions kubeConfig) (.error err :: answers)).run t =
      (.returned ⟨none, some err⟩, t ++ [.Question (selectQuestion kubeConfig)]) := by
  simp [selectQuestion, selectLoop, emit, bind, StateT.bind, modify, modifyGet,
    MonadStateOf.modifyGet, StateT.modifyGet, pure, StateT.pure, StateT.run]

/-- An answer whose context, cluster or URL cannot be resolved ends the loop without a
session. -/
theorem selectLoop_unresolved (env : Env) (switchContext : Bool) (kubeLoader : Loader)
    (kubeConfig : KubeConfig) (name : String) (answers : List (Except Error String))
    (hhost : serverHost env kubeConfig name = none) :
    ∃ o, (∀ t, (selectLoop env false switchContext kubeLoader kubeConfig
        (offeredOptions kubeConfig) (.ok name :: answers)).run t =
      (o, t ++ [.Question (selectQuestion kubeConfig)])) ∧
      (o = .nilPointerDereference →
        kubeConfig.Contexts.lookup name = none ∨
          ∃ ctx, kubeConfig.Contexts.lookup name = some ctx ∧
            kubeConfig.Clusters.lookup ctx.Cluster = none) := by
  cases h1 : kubeConfig.Contexts.lookup name with
  | none =>
    refine ⟨.nilPointerDereference, fun t => ?_, fun _ => Or.inl rfl⟩
    simp [selectQuestion, selectLoop, emit, bind, StateT.bind, modify, modifyGet,
      MonadStateOf.modifyGet, StateT.modifyGet, pure, StateT.pure, StateT.run, h1]
  | some ctx =>
    cases h2 : kubeConfig.Clusters.lookup ctx.Cluster with
    | none =>
      refine ⟨.nilPointerDereference, fun t => ?_, fun _ => Or.inr ⟨ctx, rfl, h2⟩⟩
      simp [selectQuestion, selectLoop, emit, bind, StateT.bind, modify, modifyGet,
        MonadStateOf.modifyGet, StateT.modifyGet, pure, StateT.pure, StateT.run, h1, h2]
    | some cluster =>
      cases h3 : env.urlParse cluster.Server with
      | error e =>
        refine ⟨.returned ⟨none, some (.Wrap e "url parse")⟩, fun t => ?_,
          fun h => by cases h⟩
        simp [selectQuestion, selectLoop, emit, bind, StateT.bind, modify, modifyGet,
          MonadStateOf.modifyGet, StateT.modifyGet, pure, StateT.pure, StateT.run, h1, h2, h3]
      | ok url => simp [serverHost, h1, h2, h3] at hhost

/-- An answer on a private host is rejected: an info line, then the loop goes on with the
remaining answers. -/
theorem selectLoop_private (env : Env) (switchContext : Bool) (kubeLoader : Loader)
    (kubeConfig : KubeConfig) (name host : String) (answers : List (Except Error String))
    (t : List Event) (hhost : serverHost env kubeConfig name = some host)
    (hprivate : isPrivateHost env host = true) :
    (selectLoop env false switchContext kubeLoader kubeConfig
        (offeredOptions kubeConfig) (.ok name :: answers)).run t =
      (selectLoop env false switchContext kubeLoader kubeConfig
        (offeredOptions kubeConfig) answers).run (t ++ rejection kubeConfig host) := by
  cases h1 : kubeConfig.Contexts.lookup name with
  | none => simp [serverHost, h1] at hhost
  | some ctx =>
    cases h2 : kubeConfig.Clusters.lookup ctx.Cluster with
    | none => simp [serverHost, h1, h2] at hhost
    | some cluster =>
      cases h3 : env.urlParse cluster.Server with
      | error e => simp [serverHost, h1, h2, h3] at hhost
      | ok url =>
        simp only [serverHost, h1, h2, h3, Option.some.injEq] at hhost
        subst hhost
        cases h4 : env.ParseIP (env.Hostname url) with
        | none => simp [isPrivateHost, h4] at hprivate
        | some ip =>
          simp only [isPrivateHost, h4] at hprivate
          simp [selectQuestion, rejection, selectLoop, emit, bind, StateT.bind, modify, modifyGet,
            MonadStateOf.modifyGet, StateT.modifyGet, pure, StateT.pure, StateT.run, h1, h2, h3,
            h4, hprivate]
          rfl

/-- An answer on a host that is not private is accepted: the session factory is entered
with that context and its result returned. -/
theorem selectLoop_public (env : Env) (switchContext : Bool) (kubeLoader : Loader)
    (kubeConfig : KubeConfig) (name host : String) (answers : List (Except Error String))
    (t : List Event) (hhost : serverHost env kubeConfig name = some host)
    (hpublic : isPrivateHost env host = false) :
    (selectLoop env false switchContext kubeLoader kubeConfig
        (offeredOptions kubeConfig) (.ok name :: answers)).run t =
      (.returned (run (NewClientFromContext env name "" switchContext kubeLoader)).1,
        t ++ [.Question (selectQuestion kubeConfig),
          .NewClientFromContext name "" switchContext kubeLoader]) := by
  have hnew := fun (t : List Event) =>
    NewClientFromContext_run env name "" switchContext kubeLoader t
  generalize (run (NewClientFromContext env name "" switchContext kubeLoader)).1 = r
    at hnew ⊢
  simp only [StateT.run] at hnew
  cases h1 : kubeConfig.Contexts.lookup name with
  | none => simp [serverHost, h1] at hhost
  | some ctx =>
    cases h2 : kubeConfig.Clusters.lookup ctx.Cluster with
    | none => simp [serverHost, h1, h2] at hhost
    | some cluster =>
      cases h3 : env.urlParse cluster.Server with
      | error e => simp [serverHost, h1, h2, h3] at hhost
      | ok url =>
        simp only [serverHost, h1, h2, h3, Option.some.injEq] at hhost
        subst hhost
        cases h4 : env.ParseIP (env.Hostname url) with
        | none =>
          simp [selectQuestion, selectLoop, emit, bind, StateT.bind, modify, modifyGet,
            MonadStateOf.modifyGet, StateT.modifyGet, pure, StateT.pure, StateT.run, h1, h2, h3,
            h4, hnew]
        | some ip =>
          simp only [isPrivateHost, h4] at hpublic
          simp [selectQuestion, selectLoop, emit, bind, StateT.bind, modify, modifyGet,
            MonadStateOf.modifyGet, StateT.modifyGet, pure, StateT.pure, StateT.run, h1, h2, h3,
            h4, hpublic, hnew]

/-- With private clusters excluded, the loop only appends to the trace it is started
with. -/
theorem selectLoop_run (env : Env) (switchContext : Bool) (kubeLoader : Loader)
    (kubeConfig : KubeConfig) (answers : List (Except Error String)) :
    ∀ t : List Event,
      (selectLoop env false switchContext kubeLoader kubeConfig (offeredOptions kubeConfig)
          answers).run t =
        ((run (selectLoop env false switchContext kubeLoader kubeConfig
            (offeredOptions kubeConfig) answers)).1,
          t ++ (run (selectLoop env false switchContext kubeLoader kubeConfig
            (offeredOptions kubeConfig) answers)).2) := by
  induction answers with
  | nil =>
    intro t
    simp only [run]
    rw [selectLoop_nil, selectLoop_nil]
    rfl
  | cons answer answers ih =>
    intro t
    simp only [run] at ih ⊢
    cases answer with
    | error err =>
      rw [selectLoop_error, selectLoop_error]
      rfl
    | ok name =>
      cases hhost : serverHost env kubeConfig name with
      | none =>
        obtain ⟨o, ho, -⟩ := selectLoop_unresolved env switchContext kubeLoader kubeConfig name
          answers hhost
        rw [ho t, ho []]
        rfl
      | some host =>
        cases hp : isPrivateHost env host with
        | true =>
          rw [selectLoop_private env switchContext kubeLoader kubeConfig name host answers t
            hhost hp, selectLoop_private env switchContext kubeLoader kubeConfig name host
            answers [] hhost hp, ih (t ++ _), ih ([] ++ _)]
          simp
        | false =>
          rw [selectLoop_public env switchContext kubeLoader kubeConfig name host answers t
            hhost hp, selectLoop_public env switchContext kubeLoader kubeConfig name host
            answers [] hhost hp]
          rfl

/-- Every run of the loop starts by asking the question. -/
theorem selectLoop_head (env : Env) (switchContext : Bool) (kubeLoader : Loader)
    (kubeConfig : KubeConfig) (answers : List (Except Error String)) :
    (run (selectLoop env false switchContext kubeLoader kubeConfig
      (offeredOptions kubeConfig) answers)).2.head? =
      some (.Question (selectQuestion kubeConfig)) := by
  simp only [run]
  cases answers with
  | nil =>
    rw [selectLoop_nil]
    rfl
  | cons answer answers =>
    cases answer with
    | error err =>
      rw [selectLoop_error]
      rfl
    | ok name =>
      cases hhost : serverHost env kubeConfig name with
      | none =>
        obtain ⟨o, ho, -⟩ := selectLoop_unresolved env switchContext kubeLoader kubeConfig name
          answers hhost
        rw [ho []]
        rfl
      | some host =>
        cases hp : isPrivateHost env host with
        | true =>
          rw [selectLoop_private env switchContext kubeLoader kubeConfig name host answers []
            hhost hp, selectLoop_run]
          rfl
        | false =>
          rw [selectLoop_public env switchContext kubeLoader kubeConfig name host answers []
            hhost hp]
          rfl

/-- A context name that is a key of the entry list is found by the lookup. -/
theorem lookup_of_mem_keys {β : Type} (l : List (String × β)) (name : String)
    (h : name ∈ l.map Prod.fst) : ∃ v, l.lookup name = some v ∧ (name, v) ∈ l := by
  induction l with
  | nil => cases h
  | cons p l ih =>
    obtain ⟨k, v⟩ := p
    by_cases hk : name = k
    · subst hk
      exact ⟨v, by simp [List.lookup], List.mem_cons_self _ _⟩
    · have h2 : name ∈ l.map Prod.fst := by
        simp only [List.map_cons, List.mem_cons] at h
        rcases h with h | h
        · exact absurd h hk
        · exact h
      obtain ⟨w, hw, hmem⟩ := ih h2
      refine ⟨w, ?_, List.mem_cons_of_mem _ hmem⟩
      have hk2 : (name == k) = false := by simpa using hk
      simp [List.lookup, hk2, hw]

/-- The offered options are the context names. -/
theorem mem_offeredOptions (kubeConfig : KubeConfig) (name : String) :
    name ∈ offeredOptions kubeConfig ↔ name ∈ kubeConfig.Contexts.map Prod.fst := by
  unfold offeredOptions
  rw [(List.perm_insertionSort _ _).mem_iff, List.mem_dedup]

/-- In a kube config whose contexts all name an existing cluster, an offered answer never
leads to a nil pointer dereference. -/
theorem selectLoop_no_nil (env : Env) (switchContext : Bool) (kubeLoader : Loader)
    (kubeConfig : KubeConfig)
    (hclusters : ∀ entry ∈ kubeConfig.Contexts,
      (kubeConfig.Clusters.lookup entry.2.Cluster).isSome = true)
    (answers : List (Except Error String))
    (hoffered : ∀ name, .ok name ∈ answers → name ∈ offeredOptions kubeConfig) :
    (run (selectLoop env false switchContext kubeLoader kubeConfig
      (offeredOptions kubeConfig) answers)).1 ≠ .nilPointerDereference := by
  induction answers with
  | nil =>
    simp only [run]
    rw [selectLoop_nil]
    simp
  | cons answer answers ih =>
    have ih2 := ih (fun name h => hoffered name (List.mem_cons_of_mem _ h))
    simp only [run] at ih2 ⊢
    cases answer with
    | error err =>
      rw [selectLoop_error]
      simp
    | ok name =>
      cases hhost : serverHost env kubeConfig name with
      | none =>
        obtain ⟨o, ho, hnil⟩ := selectLoop_unresolved env switchContext kubeLoader kubeConfig
          name answers hhost
        rw [ho []]
        intro hcon
        obtain ⟨ctx, hctx, hmem⟩ := lookup_of_mem_keys kubeConfig.Contexts name
          ((mem_offeredOptions kubeConfig name).mp (hoffered name (List.mem_cons_self _ _)))
        rcases hnil hcon with h | ⟨ctx2, h, h2⟩
        · rw [hctx] at h
          cases h
        · rw [hctx] at h
          cases h
          have := hclusters (name, ctx) hmem
          rw [h2] at this
          cases this
      | some host =>
        cases hp : isPrivateHost env host with
        | true =>
          rw [selectLoop_private env switchContext kubeLoader kubeConfig name host answers []
            hhost hp, selectLoop_run]
          exact ih2
        | false =>
          rw [selectLoop_public env switchContext kubeLoader kubeConfig name host answers []
            hhost hp]
          simp

/-- Whenever the loop enters the session factory, it does so for a context whose server
host is not private. -/
theorem selectLoop_public_only (env : Env) (switchContext : Bool) (kubeLoader : Loader)
    (kubeConfig : KubeConfig) (answers : List (Except Error String)) :
    ∀ e ∈ (run (selectLoop env false switchContext kubeLoader kubeConfig
      (offeredOptions kubeConfig) answers)).2,
      e.isNewClient = true →
        ∃ name host, e = .NewClientFromContext name "" switchContext kubeLoader ∧
          serverHost env kubeConfig name = some host ∧ isPrivateHost env host = false := by
  induction answers with
  | nil =>
    simp only [run]
    rw [selectLoop_nil]
    simp [Event.isNewClient]
  | cons answer answers ih =>
    simp only [run] at ih ⊢
    cases answer with
    | error err =>
      rw [selectLoop_error]
      simp [Event.isNewClient]
    | ok name =>
      cases hhost : serverHost env kubeConfig name with
      | none =>
        obtain ⟨o, ho, -⟩ := selectLoop_unresolved env switchContext kubeLoader kubeConfig
          name answers hhost
        rw [ho []]
        simp [Event.isNewClient]
      | some host =>
        cases hp : isPrivateHost env host with
        | true =>
          rw [selectLoop_private env switchContext kubeLoader kubeConfig name host answers []
            hhost hp, selectLoop_run]
          intro e he hnew
          simp only [List.mem_append] at he
          rcases he with he | he
          · simp [rejection] at he
            rcases he with he | he <;> rw [he] at hnew <;> cases hnew
          · exact ih e he hnew
        | false =>
          rw [selectLoop_public env switchContext kubeLoader kubeConfig name host answers []
            hhost hp]
          intro e he hnew
          simp at he
          rcases he with he | he
          · rw [he] at hnew
            cases hnew
          · exact ⟨name, host, he, hhost, hp⟩

/-- A run of answers on private hosts is rejected as a whole: the loop goes on with the
answers that follow. -/
theorem selectLoop_rejections (env : Env) (switchContext : Bool) (kubeLoader : Loader)
    (kubeConfig : KubeConfig) (rejected rest : List (Except Error String))
    (hprivate : ∀ a ∈ rejected, ∃ name host, a = .ok name ∧
      serverHost env kubeConfig name = some host ∧ isPrivateHost env host = true) :
    ∀ t, (selectLoop env false switchContext kubeLoader kubeConfig
        (offeredOptions kubeConfig) (rejected ++ rest)).run t =
      (selectLoop env false switchContext kubeLoader kubeConfig
        (offeredOptions kubeConfig) rest).run (t ++ rejections env kubeConfig rejected) := by
  induction rejected with
  | nil =>
    intro t
    simp [rejections]
  | cons a rejected ih =>
    intro t
    obtain ⟨name, host, rfl, hhost, hp⟩ := hprivate a (List.mem_cons_self _ _)
    rw [List.cons_append, selectLoop_private env switchContext kubeLoader kubeConfig name host
      _ t hhost hp, ih (fun b hb => hprivate b (List.mem_cons_of_mem _ hb))]
    simp [rejections, hhost]

/-! ## What the named pieces contain -/

theorem mem_of_mem_ite (p : Prop) [Decidable p] (l : List Event) (e : Event)
    (he : e ∈ (if p then l else [])) : e ∈ l := by
  split at he
  · exact he
  · cases he

theorem contextWarning_silent (c : client) (last : LastContextConfig) :
    ∀ e ∈ contextWarning c last, e.isQuestion = false ∧ e.isNewClient = false := by
  simp [contextWarning, Event.isQuestion, Event.isNewClient]

theorem namespaceWarning_silent (c : client) (last : LastContextConfig) :
    ∀ e ∈ namespaceWarning c last, e.isQuestion = false ∧ e.isNewClient = false := by
  simp [namespaceWarning, Event.isQuestion, Event.isNewClient]

theorem defaultNamespaceWarning_silent :
    ∀ e ∈ defaultNamespaceWarning, e.isQuestion = false ∧ e.isNewClient = false := by
  simp [defaultNamespaceWarning, Event.isQuestion, Event.isNewClient]

theorem usingInfo_silent (ns context : String) :
    ∀ e ∈ usingInfo ns context, e.isQuestion = false ∧ e.isNewClient = false := by
  simp [usingInfo, Event.isQuestion, Event.isNewClient]

/-! ## Claims about `CheckKubeContext` -/

/-- C1: on a context mismatch (last context non-empty and different from the current
one) with the warning logic active, an interactive terminal and `log.Question` answering
with the last context, `NewClientFromContext` is entered exactly once, with (last context,
last namespace, `switchContext = true`, the client's kube loader), and `CheckKubeContext`
returns exactly that call's result, whatever the last namespace is. -/
theorem CheckKubeContext_context_switch (env : Env) (c : client) (g : Config)
    (noWarning : Bool) (log : Logger) (last : LastContextConfig)
    (hlast : g.GetActive.LastContext = some last) (hlevel : InfoLevel ≤ log.GetLevel)
    (hnw : noWarning = false)
    (hne : last.Context ≠ "") (hdiff : last.Context ≠ c.CurrentContext)
    (hterm : env.isTerminalIn = true)
    (hq : log.Question (contextQuestion c last) = .ok last.Context) :
    (run (c.CheckKubeContext env (some g) noWarning log)).2.filter Event.isNewClient =
        [.NewClientFromContext last.Context last.Namespace true c.kubeLoader] ∧
      (run (c.CheckKubeContext env (some g) noWarning log)).1 =
        (run (NewClientFromContext env last.Context last.Namespace true c.kubeLoader)).1 := by
  subst hnw
  rw [CheckKubeContext_contextSwitch env c g log last last.Context hlast hlevel hne hdiff hterm
    hq hdiff]
  simp [contextWarning, usingInfo, Event.isNewClient, List.filter]

/-- C1 at last target prod/dev, current staging/default, the user picking prod. -/
theorem CheckKubeContext_context_switch_witness :
    (run ((sampleClient "staging" "default").CheckKubeContext (sampleEnv true)
        (some (sampleGenerated (some ⟨"dev", "prod"⟩))) false
        (sampleLogger (.ok "prod")))).2.filter Event.isNewClient =
        [.NewClientFromContext "prod" "dev" true sampleLoader] ∧
      (run ((sampleClient "staging" "default").CheckKubeContext (sampleEnv true)
        (some (sampleGenerated (some ⟨"dev", "prod"⟩))) false
        (sampleLogger (.ok "prod")))).1 =
        (run (NewClientFromContext (sampleEnv true) "prod" "dev" true sampleLoader)).1 :=
  CheckKubeContext_context_switch (sampleEnv true) (sampleClient "staging" "default")
    (sampleGenerated (some ⟨"dev", "prod"⟩)) false (sampleLogger (.ok "prod"))
    ⟨"dev", "prod"⟩
    rfl (by decide) rfl (by decide) (by decide) rfl rfl

/-- C2: when the last target mismatches the client (context non-empty and different, or
namespace non-empty and different) and the terminal is not interactive, `CheckKubeContext`
returns the very same client with a nil error, and neither `log.Question` nor
`NewClientFromContext` is called. -/
theorem CheckKubeContext_non_interactive_drift (env : Env) (c : client) (g : Config)
    (noWarning : Bool) (log : Logger) (last : LastContextConfig)
    (hlast : g.GetActive.LastContext = some last)
    (hmis : (last.Context ≠ "" ∧ last.Context ≠ c.CurrentContext) ∨
      (last.Namespace ≠ "" ∧ last.Namespace ≠ c.Namespace))
    (hterm : env.isTerminalIn = false) :
    (run (c.CheckKubeContext env (some g) noWarning log)).1 = ⟨some c, none⟩ ∧
      ∀ e ∈ (run (c.CheckKubeContext env (some g) noWarning log)).2,
        e.isQuestion = false ∧ e.isNewClient = false := by
  rcases CheckKubeContext_paths env c (some g) noWarning log with
    ⟨hq, h⟩ | ⟨g', hg, hlevel, hnw', ⟨hl, h⟩ | ⟨last', hl, ⟨hc, hn, h⟩ |
      ⟨hc1, hc2, ⟨ht, h⟩ | ⟨ht, ⟨err, hq, h⟩ | ⟨hq, h⟩ | ⟨kc, hq, hkc, h⟩⟩⟩ |
      ⟨hc, hn1, hn2,
        ⟨ht, h⟩ | ⟨ht, ⟨err, hq, h⟩ | ⟨hq, h⟩ | ⟨ns, hq, hns, h⟩⟩⟩⟩⟩
  all_goals (try cases hg)
  all_goals (try (rw [hlast] at hl; cases hl))
  all_goals (try (rw [hterm] at ht; cases ht))
  all_goals rw [h]
  · exact ⟨rfl, usingInfo_silent _ _⟩
  · rcases hmis with ⟨h1, h2⟩ | ⟨h1, h2⟩
    · rcases hc with hc | hc
      · exact absurd hc h1
      · exact absurd hc h2
    · rcases hn with hn | hn
      · exact absurd hn h1
      · exact absurd hn h2
  · exact ⟨rfl, contextWarning_silent c last⟩
  · exact ⟨rfl, namespaceWarning_silent c last⟩

/-- C2 at last target prod/dev, current staging/default, terminal not interactive. -/
theorem CheckKubeContext_non_interactive_drift_witness :
    (run ((sampleClient "staging" "default").CheckKubeContext (sampleEnv false)
        (some (sampleGenerated (some ⟨"dev", "prod"⟩))) false
        (sampleLogger (.ok "prod")))).1 = ⟨some (sampleClient "staging" "default"), none⟩ ∧
      ∀ e ∈ (run ((sampleClient "staging" "default").CheckKubeContext (sampleEnv false)
        (some (sampleGenerated (some ⟨"dev", "prod"⟩))) false (sampleLogger (.ok "prod")))).2,
        e.isQuestion = false ∧ e.isNewClient = false :=
  CheckKubeContext_non_interactive_drift (sampleEnv false) (sampleClient "staging" "default")
    (sampleGenerated (some ⟨"dev", "prod"⟩)) false (sampleLogger (.ok "prod"))
    ⟨"dev", "prod"⟩
    rfl (Or.inl ⟨by decide, by decide⟩) rfl

/-- C3: when no last target is recorded, or its context and namespace both equal the
client's current ones, `CheckKubeContext` asks no question, does not call
`NewClientFromContext` and returns the same client with a nil error, interactive terminal
or not. -/
theorem CheckKubeContext_no_drift (env : Env) (c : client) (generatedConfig : Option Config)
    (noWarning : Bool) (log : Logger)
    (hsame : ∀ g, generatedConfig = some g →
      g.GetActive.LastContext = none ∨
        g.GetActive.LastContext = some ⟨c.Namespace, c.CurrentContext⟩) :
    (run (c.CheckKubeContext env generatedConfig noWarning log)).1 = ⟨some c, none⟩ ∧
      ∀ e ∈ (run (c.CheckKubeContext env generatedConfig noWarning log)).2,
        e.isQuestion = false ∧ e.isNewClient = false := by
  rcases CheckKubeContext_paths env c generatedConfig noWarning log with
    ⟨hq, h⟩ | ⟨g', hg, hlevel, hnw', ⟨hl, h⟩ | ⟨last', hl, ⟨hc, hn, h⟩ |
      ⟨hc1, hc2, hrest⟩ | ⟨hc, hn1, hn2, hrest⟩⟩⟩
  · rw [h]
    exact ⟨rfl, usingInfo_silent _ _⟩
  · rw [h]
    refine ⟨rfl, fun e he => ?_⟩
    rcases List.mem_append.mp he with he | he
    · exact defaultNamespaceWarning_silent e (mem_of_mem_ite _ _ e he)
    · exact usingInfo_silent _ _ e he
  · rw [h]
    refine ⟨rfl, fun e he => ?_⟩
    rcases List.mem_append.mp he with he | he
    · exact defaultNamespaceWarning_silent e (mem_of_mem_ite _ _ e he)
    · exact usingInfo_silent _ _ e he
  · rcases hsame g' hg with h0 | h0
    · rw [h0] at hl
      cases hl
    · rw [h0] at hl
      cases hl
      exact absurd rfl hc2
  · rcases hsame g' hg with h0 | h0
    · rw [h0] at hl
      cases hl
    · rw [h0] at hl
      cases hl
      exact absurd rfl hn2

/-- C3 at last target prod/default and current prod/default. -/
theorem CheckKubeContext_no_drift_witness :
    (run ((sampleClient "prod" "default").CheckKubeContext (sampleEnv true)
        (some (sampleGenerated (some ⟨"default", "prod"⟩))) false
        (sampleLogger (.ok "prod")))).1 = ⟨some (sampleClient "prod" "default"), none⟩ ∧
      ∀ e ∈ (run ((sampleClient "prod" "default").CheckKubeContext (sampleEnv true)
        (some (sampleGenerated (some ⟨"default", "prod"⟩))) false
        (sampleLogger (.ok "prod")))).2,
        e.isQuestion = false ∧ e.isNewClient = false :=
  CheckKubeContext_no_drift (sampleEnv true) (sampleClient "prod" "default")
    (some (sampleGenerated (some ⟨"default", "prod"⟩))) false (sampleLogger (.ok "prod"))
    (fun g hg => by cases hg; exact Or.inr rfl)

/-- C5: if the question `CheckKubeContext` asks (context prompt or namespace prompt) is
answered with an error, the call returns the client together with that same error, and
`NewClientFromContext` is never called. -/
theorem CheckKubeContext_prompt_failure (env : Env) (c : client)
    (generatedConfig : Option Config) (noWarning : Bool) (log : Logger)
    (q : QuestionOptions) (err : Error)
    (hasked : Event.Question q ∈ (run (c.CheckKubeContext env generatedConfig noWarning log)).2)
    (herr : log.Question q = .error err) :
    (run (c.CheckKubeContext env generatedConfig noWarning log)).1 = ⟨some c, some err⟩ ∧
      ∀ e ∈ (run (c.CheckKubeContext env generatedConfig noWarning log)).2,
        e.isNewClient = false := by
  rcases CheckKubeContext_paths env c generatedConfig noWarning log with
    ⟨hq, h⟩ | ⟨g', hg, hlevel, hnw', ⟨hl, h⟩ | ⟨last', hl, ⟨hc, hn, h⟩ |
      ⟨hc1, hc2, ⟨ht, h⟩ | ⟨ht, ⟨err', hq, h⟩ | ⟨hq, h⟩ | ⟨kc, hq, hkc, h⟩⟩⟩ |
      ⟨hc, hn1, hn2,
        ⟨ht, h⟩ | ⟨ht, ⟨err', hq, h⟩ | ⟨hq, h⟩ | ⟨ns, hq, hns, h⟩⟩⟩⟩⟩
  all_goals rw [h] at hasked ⊢
  all_goals simp only [List.mem_append, usingInfo, contextWarning, namespaceWarning,
    defaultNamespaceWarning, ansiColor, List.mem_cons, List.mem_singleton, List.not_mem_nil,
    reduceCtorEq, or_false, false_or] at hasked
  all_goals (try (split at hasked))
  all_goals (try (simp only [List.mem_append, usingInfo, contextWarning, namespaceWarning,
    defaultNamespaceWarning, ansiColor, List.mem_cons, List.mem_singleton, List.not_mem_nil,
    reduceCtorEq, or_false, false_or] at hasked))
  all_goals (try (cases hasked))
  all_goals (try (rw [hq] at herr; cases herr))
  · simp [contextWarning, Event.isNewClient, ansiColor]
  · simp [namespaceWarning, Event.isNewClient, ansiColor]

/-- C5 at a context prompt that fails with the error "interrupted". -/
theorem CheckKubeContext_prompt_failure_witness :
    (run ((sampleClient "staging" "default").CheckKubeContext (sampleEnv true)
        (some (sampleGenerated (some ⟨"dev", "prod"⟩))) false
        (sampleLogger (.error (.New "interrupted"))))).1 =
        ⟨some (sampleClient "staging" "default"), some (.New "interrupted")⟩ ∧
      ∀ e ∈ (run ((sampleClient "staging" "default").CheckKubeContext (sampleEnv true)
        (some (sampleGenerated (some ⟨"dev", "prod"⟩))) false
        (sampleLogger (.error (.New "interrupted"))))).2, e.isNewClient = false :=
  CheckKubeContext_prompt_failure (sampleEnv true) (sampleClient "staging" "default")
    (some (sampleGenerated (some ⟨"dev", "prod"⟩))) false
    (sampleLogger (.error (.New "interrupted")))
    (contextQuestion (sampleClient "staging" "default") ⟨"dev", "prod"⟩) (.New "interrupted")
    (by decide) rfl

/-- C8: when the last context is non-empty and differs from the current one, then whatever
the last namespace is (in particular when it differs from the current one too)
`log.Question` is called at most once, and only with the context question (options
current context, last context; default the current context); the namespace question is
not asked; and if the answer is the current context the same client is returned and
`NewClientFromContext` is not called. -/
theorem CheckKubeContext_context_first (env : Env) (c : client) (g : Config)
    (noWarning : Bool) (log : Logger) (last : LastContextConfig)
    (hlast : g.GetActive.LastContext = some last)
    (hne : last.Context ≠ "") (hdiff : last.Context ≠ c.CurrentContext) :
    ((run (c.CheckKubeContext env (some g) noWarning log)).2.filter Event.isQuestion = [] ∨
      (run (c.CheckKubeContext env (some g) noWarning log)).2.filter Event.isQuestion =
        [.Question
          { Question := "Which context do you want to use?"
            DefaultValue := c.CurrentContext
            Options := [c.CurrentContext, last.Context] }]) ∧
      Event.Question (namespaceQuestion c last) ∉
        (run (c.CheckKubeContext env (some g) noWarning log)).2 ∧
      (log.Question (contextQuestion c last) = .ok c.CurrentContext →
        (run (c.CheckKubeContext env (some g) noWarning log)).1 = ⟨some c, none⟩ ∧
        ∀ e ∈ (run (c.CheckKubeContext env (some g) noWarning log)).2,
          e.isNewClient = false) := by
  have hfilter : ∀ t : List Event,
      (t.filter Event.isQuestion = [] ∨
        t.filter Event.isQuestion = [.Question (contextQuestion c last)]) →
      Event.Question (namespaceQuestion c last) ∉ t := by
    intro t ht hmem
    have h1 : Event.Question (namespaceQuestion c last) ∈ t.filter Event.isQuestion :=
      List.mem_filter.mpr ⟨hmem, rfl⟩
    rcases ht with ht | ht
    · rw [ht] at h1
      cases h1
    · rw [ht] at h1
      simp [namespaceQuestion, contextQuestion] at h1
  have hmain :
      ((run (c.CheckKubeContext env (some g) noWarning log)).2.filter Event.isQuestion = [] ∨
        (run (c.CheckKubeContext env (some g) noWarning log)).2.filter Event.isQuestion =
          [.Question (contextQuestion c last)]) ∧
      (log.Question (contextQuestion c last) = .ok c.CurrentContext →
        (run (c.CheckKubeContext env (some g) noWarning log)).1 = ⟨some c, none⟩ ∧
        ∀ e ∈ (run (c.CheckKubeContext env (some g) noWarning log)).2,
          e.isNewClient = false) := by
    rcases CheckKubeContext_paths env c (some g) noWarning log with
      ⟨hq, h⟩ | ⟨g', hg, hlevel, hnw', ⟨hl, h⟩ | ⟨last', hl, ⟨hc, hn, h⟩ |
        ⟨hc1, hc2,
          ⟨ht, h⟩ | ⟨ht, ⟨err', hq, h⟩ | ⟨hq, h⟩ | ⟨kc, hq, hkc, h⟩⟩⟩ |
        ⟨hc, hn1, hn2, hrest⟩⟩⟩
    all_goals (try cases hg)
    all_goals (try (rw [hlast] at hl; cases hl))
    · rw [h]
      exact ⟨Or.inl (by simp [usingInfo, Event.isQuestion]), fun _ => ⟨rfl, fun e he =>
        (usingInfo_silent _ _ e he).2⟩⟩
    · rcases hc with hc | hc
      · exact absurd hc hne
      · exact absurd hc hdiff
    · rw [h]
      exact ⟨Or.inl (by simp [contextWarning, Event.isQuestion]), fun _ => ⟨rfl, fun e he =>
        (contextWarning_silent _ _ e he).2⟩⟩
    · rw [h]
      refine ⟨Or.inr (by simp [contextWarning, Event.isQuestion]), fun hq2 => ?_⟩
      rw [hq] at hq2
      cases hq2
    · rw [h]
      refine ⟨Or.inr ?_, fun _ => ⟨rfl, ?_⟩⟩
      · split <;> simp [contextWarning, usingInfo, defaultNamespaceWarning, Event.isQuestion]
      · intro e he
        simp only [List.mem_append, List.mem_singleton] at he
        rcases he with ((he | he) | he) | he
        · exact (contextWarning_silent _ _ e he).2
        · rw [he]
          rfl
        · exact (defaultNamespaceWarning_silent e (mem_of_mem_ite _ _ e he)).2
        · exact (usingInfo_silent _ _ e he).2
    · rw [h]
      refine ⟨Or.inr (by simp [contextWarning, usingInfo, Event.isQuestion]), fun hq2 => ?_⟩
      rw [hq] at hq2
      cases hq2
      exact absurd rfl hkc
    · rcases hc with hc | hc
      · exact absurd hc hne
      · exact absurd hc hdiff
  exact ⟨hmain.1, hfilter _ hmain.1, hmain.2⟩

/-- C8 at last target prod/dev, current staging/default, the user keeping staging. -/
theorem CheckKubeContext_context_first_witness :
    (run ((sampleClient "staging" "default").CheckKubeContext (sampleEnv true)
        (some (sampleGenerated (some ⟨"dev", "prod"⟩))) false
        (sampleLogger (.ok "staging")))).1 = ⟨some (sampleClient "staging" "default"), none⟩ ∧
      Event.Question (namespaceQuestion (sampleClient "staging" "default") ⟨"dev", "prod"⟩) ∉
        (run ((sampleClient "staging" "default").CheckKubeContext (sampleEnv true)
          (some (sampleGenerated (some ⟨"dev", "prod"⟩))) false
          (sampleLogger (.ok "staging")))).2 :=
  have h := CheckKubeContext_context_first (sampleEnv true) (sampleClient "staging" "default")
    (sampleGenerated (some ⟨"dev", "prod"⟩)) false (sampleLogger (.ok "staging"))
    ⟨"dev", "prod"⟩
    rfl (by decide) (by decide)
  ⟨(h.2.2 rfl).1, h.2.1⟩

/-- C9: on a namespace mismatch (last context empty or equal to the current one, last
namespace non-empty and different) with the warning logic active and an interactive
terminal: if the namespace question is answered with the last namespace,
`NewClientFromContext` is entered exactly once with (current context, last namespace,
`switchContext = true`, the client's kube loader) and its result is returned; if it is
answered with the current namespace, the same client is returned and
`NewClientFromContext` is not called. -/
theorem CheckKubeContext_namespace_switch (env : Env) (c : client) (g : Config)
    (noWarning : Bool) (log : Logger) (last : LastContextConfig)
    (hlast : g.GetActive.LastContext = some last) (hlevel : InfoLevel ≤ log.GetLevel)
    (hnw : noWarning = false)
    (hctx : last.Context = "" ∨ last.Context = c.CurrentContext)
    (hne : last.Namespace ≠ "") (hdiff : last.Namespace ≠ c.Namespace)
    (hterm : env.isTerminalIn = true) :
    (log.Question
        { Question := "Which namespace do you want to use?"
          DefaultValue := c.Namespace
          Options := [c.Namespace, last.Namespace] } = .ok last.Namespace →
      (run (c.CheckKubeContext env (some g) noWarning log)).2.filter Event.isNewClient =
          [.NewClientFromContext c.CurrentContext last.Namespace true c.kubeLoader] ∧
        (run (c.CheckKubeContext env (some g) noWarning log)).1 =
          (run (NewClientFromContext env c.CurrentContext last.Namespace true c.kubeLoader)).1) ∧
    (log.Question
        { Question := "Which namespace do you want to use?"
          DefaultValue := c.Namespace
          Options := [c.Namespace, last.Namespace] } = .ok c.Namespace →
      (run (c.CheckKubeContext env (some g) noWarning log)).2.filter Event.isNewClient = [] ∧
        (run (c.CheckKubeContext env (some g) noWarning log)).1 = ⟨some c, none⟩) := by
  subst hnw
  constructor
  · intro hq
    rw [CheckKubeContext_namespaceSwitch env c g log last last.Namespace hlast hlevel hctx hne
      hdiff hterm hq hdiff]
    simp [namespaceWarning, usingInfo, Event.isNewClient, List.filter]
  · intro hq
    rw [CheckKubeContext_namespaceKeep env c g log last hlast hlevel hctx hne hdiff hterm hq]
    refine ⟨?_, rfl⟩
    split <;> simp [namespaceWarning, usingInfo, defaultNamespaceWarning, Event.isNewClient,
      List.filter]

/-- C9 at last target staging/dev, current staging/default, the user picking dev. -/
theorem CheckKubeContext_namespace_switch_witness :
    (run ((sampleClient "staging" "default").CheckKubeContext (sampleEnv true)
        (some (sampleGenerated (some ⟨"dev", "staging"⟩))) false
        (sampleLogger (.ok "dev")))).2.filter Event.isNewClient =
        [.NewClientFromContext "staging" "dev" true sampleLoader] ∧
      (run ((sampleClient "staging" "default").CheckKubeContext (sampleEnv true)
        (some (sampleGenerated (some ⟨"dev", "staging"⟩))) false
        (sampleLogger (.ok "dev")))).1 =
        (run (NewClientFromContext (sampleEnv true) "staging" "dev" true sampleLoader)).1 :=
  (CheckKubeContext_namespace_switch (sampleEnv true) (sampleClient "staging" "default")
    (sampleGenerated (some ⟨"dev", "staging"⟩)) false (sampleLogger (.ok "dev"))
    ⟨"dev", "staging"⟩ rfl (by decide) rfl (Or.inr rfl) (by decide) (by decide) rfl).1 rfl

/-- C10: if `log.Question` only answers with one of the options it was offered, then a
call of `CheckKubeContext` that enters `NewClientFromContext` executes neither the
default-namespace warning nor its five-second wait. -/
theorem CheckKubeContext_switch_without_delay (env : Env) (c : client)
    (generatedConfig : Option Config) (noWarning : Bool) (log : Logger)
    (hanswer : ∀ q a, log.Question q = .ok a → a ∈ q.Options)
    (e : Event) (he : e ∈ (run (c.CheckKubeContext env generatedConfig noWarning log)).2)
    (hnew : e.isNewClient = true) :
    ∀ w ∈ defaultNamespaceWarning,
      w ∉ (run (c.CheckKubeContext env generatedConfig noWarning log)).2 := by
  rcases CheckKubeContext_paths env c generatedConfig noWarning log with
    ⟨hq, h⟩ | ⟨g', hg, hlevel, hnw', ⟨hl, h⟩ | ⟨last', hl, ⟨hc, hn, h⟩ |
      ⟨hc1, hc2, ⟨ht, h⟩ | ⟨ht, ⟨err', hq, h⟩ | ⟨hq, h⟩ | ⟨kc, hq, hkc, h⟩⟩⟩ |
      ⟨hc, hn1, hn2,
        ⟨ht, h⟩ | ⟨ht, ⟨err', hq, h⟩ | ⟨hq, h⟩ | ⟨ns, hq, hns, h⟩⟩⟩⟩⟩
  all_goals rw [h] at he ⊢
  all_goals simp only [List.mem_append, List.mem_singleton] at he
  · exact absurd hnew (by rw [(usingInfo_silent _ _ e he).2]; decide)
  · rcases he with he | he
    · exact absurd hnew (by
        rw [(defaultNamespaceWarning_silent e (mem_of_mem_ite _ _ e he)).2]; decide)
    · exact absurd hnew (by rw [(usingInfo_silent _ _ e he).2]; decide)
  · rcases he with he | he
    · exact absurd hnew (by
        rw [(defaultNamespaceWarning_silent e (mem_of_mem_ite _ _ e he)).2]; decide)
    · exact absurd hnew (by rw [(usingInfo_silent _ _ e he).2]; decide)
  · exact absurd hnew (by rw [(contextWarning_silent _ _ e he).2]; decide)
  · rcases he with he | he
    · exact absurd hnew (by rw [(contextWarning_silent _ _ e he).2]; decide)
    · rw [he] at hnew
      cases hnew
  · rcases he with ((he | he) | he) | he
    · exact absurd hnew (by rw [(contextWarning_silent _ _ e he).2]; decide)
    · rw [he] at hnew
      cases hnew
    · exact absurd hnew (by
        rw [(defaultNamespaceWarning_silent e (mem_of_mem_ite _ _ e he)).2]; decide)
    · exact absurd hnew (by rw [(usingInfo_silent _ _ e he).2]; decide)
  · simp [contextWarning, usingInfo, defaultNamespaceWarning, ansiColor]
  · exact absurd hnew (by rw [(namespaceWarning_silent _ _ e he).2]; decide)
  · rcases he with he | he
    · exact absurd hnew (by rw [(namespaceWarning_silent _ _ e he).2]; decide)
    · rw [he] at hnew
      cases hnew
  · rcases he with ((he | he) | he) | he
    · exact absurd hnew (by rw [(namespaceWarning_silent _ _ e he).2]; decide)
    · rw [he] at hnew
      cases hnew
    · exact absurd hnew (by
        rw [(defaultNamespaceWarning_silent e (mem_of_mem_ite _ _ e he)).2]; decide)
    · exact absurd hnew (by rw [(usingInfo_silent _ _ e he).2]; decide)
  · have hopt := hanswer _ _ hq
    simp only [namespaceQuestion, List.mem_cons, List.mem_singleton, List.not_mem_nil,
      or_false] at hopt
    rcases hopt with hopt | hopt
    · exact absurd hopt hns
    · have hcond : ¬ (ns = NamespaceDefault ∧ last'.Namespace ≠ NamespaceDefault) :=
        fun hh => hh.2 (hopt ▸ hh.1)
      simp [hcond, namespaceWarning, usingInfo, defaultNamespaceWarning, ansiColor]

/-- C10 at last target staging/default, current staging/dev, the user picking the last
option, default: the session is rebuilt in the default namespace and no wait is imposed. -/
theorem CheckKubeContext_switch_without_delay_witness :
    ∃ e, e ∈ (run ((sampleClient "staging" "dev").CheckKubeContext (sampleEnv true)
        (some (sampleGenerated (some ⟨"default", "staging"⟩))) false
        sampleChooser)).2 ∧ e.isNewClient = true ∧
      Event.Sleep (5 * Second) ∉
        (run ((sampleClient "staging" "dev").CheckKubeContext (sampleEnv true)
          (some (sampleGenerated (some ⟨"default", "staging"⟩))) false
          sampleChooser)).2 :=
  ⟨.NewClientFromContext "staging" "default" true sampleLoader, by decide, rfl,
    CheckKubeContext_switch_without_delay (sampleEnv true) (sampleClient "staging" "dev")
      (some (sampleGenerated (some ⟨"default", "staging"⟩))) false sampleChooser
      (fun q a h => by
        simp only [sampleChooser] at h
        split at h
        · cases h
        · cases h
          rename_i hrev
          exact List.mem_reverse.mp (hrev ▸ List.mem_cons_self _ _))
      (.NewClientFromContext "staging" "default" true sampleLoader) (by decide) rfl
      (.Sleep (5 * Second)) (by decide)⟩

/-! ## The early returns -/

theorem returnsEarly_of_question (env : Env) (c : client) (g : Config) (log : Logger)
    (last : LastContextConfig) (q : QuestionOptions)
    (hlast : g.GetActive.LastContext = some last) (hlevel : InfoLevel ≤ log.GetLevel)
    (hq : driftQuestion c (some last) = some q)
    (hstop : env.isTerminalIn = false ∨ ∃ err, log.Question q = .error err) :
    returnsEarly env c (some g) false log = true := by
  have hl : lastTarget (some g) false log = some last := by
    simp [lastTarget, hlevel, hlast]
  rcases hstop with h | ⟨err, h⟩
  · simp [returnsEarly, hl, hq, h]
  · simp [returnsEarly, hl, hq, h]

theorem driftQuestion_context (c : client) (last : LastContextConfig)
    (hne : last.Context ≠ "") (hdiff : last.Context ≠ c.CurrentContext) :
    driftQuestion c (some last) = some (contextQuestion c last) := by
  simp [driftQuestion, hne, hdiff]

theorem driftQuestion_namespace (c : client) (last : LastContextConfig)
    (hctx : last.Context = "" ∨ last.Context = c.CurrentContext)
    (hne : last.Namespace ≠ "") (hdiff : last.Namespace ≠ c.Namespace) :
    driftQuestion c (some last) = some (namespaceQuestion c last) := by
  have h : ¬ (last.Context ≠ "" ∧ last.Context ≠ c.CurrentContext) := by
    rintro ⟨h1, h2⟩
    rcases hctx with h | h
    · exact h1 h
    · exact h2 h
  simp only [driftQuestion, if_neg h]
  simp [hne, hdiff]

theorem lastTarget_quiet (generatedConfig : Option Config) (noWarning : Bool) (log : Logger)
    (h : generatedConfig = none ∨ ¬ (InfoLevel ≤ log.GetLevel ∧ noWarning = false)) :
    lastTarget generatedConfig noWarning log = none := by
  cases generatedConfig with
  | none => rfl
  | some g =>
    rcases h with h | h
    · cases h
    · simp only [lastTarget, if_neg h]

theorem lastTarget_active (g : Config) (log : Logger) (hlevel : InfoLevel ≤ log.GetLevel) :
    lastTarget (some g) false log = g.GetActive.LastContext := by
  simp [lastTarget, hlevel]

theorem driftQuestion_none (c : client) (last : LastContextConfig)
    (hctx : last.Context = "" ∨ last.Context = c.CurrentContext)
    (hns : last.Namespace = "" ∨ last.Namespace = c.Namespace) :
    driftQuestion c (some last) = none := by
  have h1 : ¬ (last.Context ≠ "" ∧ last.Context ≠ c.CurrentContext) := by
    rintro ⟨h1, h2⟩
    rcases hctx with h | h
    · exact h1 h
    · exact h2 h
  have h2 : ¬ (last.Namespace ≠ "" ∧ last.Namespace ≠ c.Namespace) := by
    rintro ⟨h1, h2⟩
    rcases hns with h | h
    · exact h1 h
    · exact h2 h
  simp only [driftQuestion, if_neg h1, if_neg h2]

/-- The early returns are exactly the calls that log no info line: a call that returns
early hands back the same client after the drift warning (and, on a failing prompt, the
question) alone. -/
theorem CheckKubeContext_early_return (env : Env) (c : client)
    (generatedConfig : Option Config) (noWarning : Bool) (log : Logger)
    (hearly : returnsEarly env c generatedConfig noWarning log = true) :
    (run (c.CheckKubeContext env generatedConfig noWarning log)).1.client = some c ∧
      (run (c.CheckKubeContext env generatedConfig noWarning log)).2.any Event.isInfof =
        false ∧
      ∀ w ∈ defaultNamespaceWarning,
        w ∉ (run (c.CheckKubeContext env generatedConfig noWarning log)).2 := by
  rcases CheckKubeContext_paths env c generatedConfig noWarning log with
    ⟨hq, h⟩ | ⟨g, hg, hlevel, hnw, ⟨hl, h⟩ | ⟨last, hl, ⟨hc, hn, h⟩ |
      ⟨hc1, hc2, ⟨ht, h⟩ | ⟨ht, ⟨err', hq, h⟩ | ⟨hq, h⟩ | ⟨kc, hq, hkc, h⟩⟩⟩ |
      ⟨hc, hn1, hn2,
        ⟨ht, h⟩ | ⟨ht, ⟨err', hq, h⟩ | ⟨hq, h⟩ | ⟨ns, hq, hns, h⟩⟩⟩⟩⟩
  all_goals (try subst hg)
  all_goals (try subst hnw)
  · simp [returnsEarly, lastTarget_quiet _ _ _ hq, driftQuestion] at hearly
  · simp [returnsEarly, lastTarget_active g log hlevel, hl, driftQuestion] at hearly
  · simp [returnsEarly, lastTarget_active g log hlevel, hl, driftQuestion_none c last hc hn]
      at hearly
  · rw [h]
    simp [contextWarning, defaultNamespaceWarning, Event.isInfof]
  · rw [h]
    simp [contextWarning, defaultNamespaceWarning, Event.isInfof]
  · simp [returnsEarly, lastTarget_active g log hlevel, hl,
      driftQuestion_context c last hc1 hc2, ht, hq] at hearly
  · simp [returnsEarly, lastTarget_active g log hlevel, hl,
      driftQuestion_context c last hc1 hc2, ht, hq] at hearly
  · rw [h]
    simp [namespaceWarning, defaultNamespaceWarning, Event.isInfof]
  · rw [h]
    simp [namespaceWarning, defaultNamespaceWarning, Event.isInfof]
  · simp [returnsEarly, lastTarget_active g log hlevel, hl,
      driftQuestion_namespace c last hc hn1 hn2, ht, hq] at hearly
  · simp [returnsEarly, lastTarget_active g log hlevel, hl,
      driftQuestion_namespace c last hc hn1 hn2, ht, hq] at hearly

/-- C6, as stated, fails: current namespace `default`, last namespace `dev` (same
context), warning logic active, terminal not interactive.  The call returns the client
of namespace `default` after the namespace warning alone: no default-namespace warning,
no wait. -/
theorem CheckKubeContext_default_warning_skipped :
    InfoLevel ≤ (sampleLogger (.ok "dev")).GetLevel ∧
      (sampleClient "staging" "default").Namespace = NamespaceDefault ∧
      run ((sampleClient "staging" "default").CheckKubeContext (sampleEnv false)
        (some (sampleGenerated (some ⟨"dev", "staging"⟩))) false (sampleLogger (.ok "dev"))) =
        (⟨some (sampleClient "staging" "default"), none⟩,
          namespaceWarning (sampleClient "staging" "default") ⟨"dev", "staging"⟩) ∧
      ∀ w ∈ defaultNamespaceWarning,
        w ∉ (run ((sampleClient "staging" "default").CheckKubeContext (sampleEnv false)
          (some (sampleGenerated (some ⟨"dev", "staging"⟩))) false
          (sampleLogger (.ok "dev")))).2 := by
  refine ⟨by decide, rfl, ?_, ?_⟩
  · rfl
  · decide

/-- C6, amended: with the warning logic active, a call that does not return early (no
drift, or an interactive terminal and an answered prompt) ends with the two info lines
for its resolved namespace and context, followed at most by the session rebuild; and if
that resolved namespace is `default` while no last target exists or the last namespace is
not `default`, the warning and the five-second wait come right before those lines. -/
theorem CheckKubeContext_default_namespace_warning (env : Env) (c : client) (g : Config)
    (noWarning : Bool) (log : Logger)
    (hlevel : InfoLevel ≤ log.GetLevel) (hnw : noWarning = false)
    (hcomplete : returnsEarly env c (some g) noWarning log = false) :
    ∃ pre ns context post,
      (run (c.CheckKubeContext env (some g) noWarning log)).2 =
          pre ++ usingInfo ns context ++ post ∧
        (post = [] ∨ post = [.NewClientFromContext context ns true c.kubeLoader]) ∧
        (ns = NamespaceDefault →
          (∀ last, g.GetActive.LastContext = some last → last.Namespace ≠ NamespaceDefault) →
          ∃ before, pre = before ++ defaultNamespaceWarning) := by
  subst hnw
  rcases CheckKubeContext_paths env c (some g) false log with
    ⟨hq, h⟩ | ⟨g', hg, -, -, ⟨hl, h⟩ | ⟨last, hl, ⟨hc, hn, h⟩ |
      ⟨hc1, hc2, ⟨ht, h⟩ | ⟨ht, ⟨err', hq, h⟩ | ⟨hq, h⟩ | ⟨kc, hq, hkc, h⟩⟩⟩ |
      ⟨hc, hn1, hn2,
        ⟨ht, h⟩ | ⟨ht, ⟨err', hq, h⟩ | ⟨hq, h⟩ | ⟨ns, hq, hns, h⟩⟩⟩⟩⟩
  all_goals (try cases hg)
  · rcases hq with hq | hq
    · cases hq
    · exact absurd ⟨hlevel, rfl⟩ hq
  · refine ⟨_, c.Namespace, c.CurrentContext, [], by rw [h, List.append_nil], Or.inl rfl, ?_⟩
    intro hd _
    exact ⟨[], by simp [hd]⟩
  · refine ⟨_, c.Namespace, c.CurrentContext, [], by rw [h, List.append_nil], Or.inl rfl, ?_⟩
    intro hd hcond
    exact ⟨[], by simp [hd, hcond last hl]⟩
  · exact absurd (returnsEarly_of_question env c g log last _ hl hlevel
      (driftQuestion_context c last hc1 hc2) (Or.inl ht)) (by simp [hcomplete])
  · exact absurd (returnsEarly_of_question env c g log last _ hl hlevel
      (driftQuestion_context c last hc1 hc2) (Or.inr ⟨err', hq⟩)) (by simp [hcomplete])
  · refine ⟨_, c.Namespace, c.CurrentContext, [], by rw [h, List.append_nil], Or.inl rfl, ?_⟩
    intro hd hcond
    exact ⟨contextWarning c last ++ [.Question (contextQuestion c last)],
      by simp [hd, hcond last hl]⟩
  · refine ⟨_, last.Namespace, kc, _, by rw [h], Or.inr rfl, ?_⟩
    intro hd hcond
    exact absurd hd (hcond last hl)
  · exact absurd (returnsEarly_of_question env c g log last _ hl hlevel
      (driftQuestion_namespace c last hc hn1 hn2) (Or.inl ht)) (by simp [hcomplete])
  · exact absurd (returnsEarly_of_question env c g log last _ hl hlevel
      (driftQuestion_namespace c last hc hn1 hn2) (Or.inr ⟨err', hq⟩)) (by simp [hcomplete])
  · refine ⟨_, c.Namespace, c.CurrentContext, [], by rw [h, List.append_nil], Or.inl rfl, ?_⟩
    intro hd hcond
    exact ⟨namespaceWarning c last ++ [.Question (namespaceQuestion c last)],
      by simp [hd, hcond last hl]⟩
  · refine ⟨_, ns, c.CurrentContext, _, by rw [h], Or.inr rfl, ?_⟩
    intro hd hcond
    exact ⟨namespaceWarning c last ++ [.Question (namespaceQuestion c last)],
      by simp [hd, hcond last hl]⟩

/-- C6, amended, at current namespace `default` with no last target recorded. -/
theorem CheckKubeContext_default_namespace_warning_witness :
    ∃ pre ns context post,
      (run ((sampleClient "staging" "default").CheckKubeContext (sampleEnv false)
        (some (sampleGenerated none)) false (sampleLogger (.ok "dev")))).2 =
          pre ++ usingInfo ns context ++ post ∧
        (post = [] ∨
          post = [.NewClientFromContext context ns true
            (sampleClient "staging" "default").kubeLoader]) ∧
        (ns = NamespaceDefault →
          (∀ last, (sampleGenerated none).GetActive.LastContext = some last →
            last.Namespace ≠ NamespaceDefault) →
          ∃ before, pre = before ++ defaultNamespaceWarning) :=
  CheckKubeContext_default_namespace_warning (sampleEnv false)
    (sampleClient "staging" "default") (sampleGenerated none) false (sampleLogger (.ok "dev"))
    (by decide) rfl (by decide)

/-- C7, as stated, fails: on a context mismatch with a terminal that is not interactive
the call returns the client without a single `Infof` call. -/
theorem CheckKubeContext_bail_skips_info :
    (run ((sampleClient "staging" "default").CheckKubeContext (sampleEnv false)
        (some (sampleGenerated (some ⟨"dev", "prod"⟩))) false
        (sampleLogger (.ok "prod")))).1 = ⟨some (sampleClient "staging" "default"), none⟩ ∧
      (run ((sampleClient "staging" "default").CheckKubeContext (sampleEnv false)
        (some (sampleGenerated (some ⟨"dev", "prod"⟩))) false
        (sampleLogger (.ok "prod")))).2.any Event.isInfof = false := by
  constructor
  · rfl
  · decide

/-- C7, amended: every call that does not return early (no drift, drift resolved by an
answered prompt, warnings suppressed) logs the two final info lines with the finally
resolved namespace and context as its last logger calls: either they end the trace, the
same client is returned and they name its namespace and context, or they are followed
only by the session rebuild for exactly that context and namespace, whose result is
returned. -/
theorem CheckKubeContext_final_info (env : Env) (c : client)
    (generatedConfig : Option Config) (noWarning : Bool) (log : Logger)
    (hcomplete : returnsEarly env c generatedConfig noWarning log = false) :
    ∃ pre ns context,
      ((run (c.CheckKubeContext env generatedConfig noWarning log)).2 =
          pre ++ usingInfo ns context ∧
        (run (c.CheckKubeContext env generatedConfig noWarning log)).1 = ⟨some c, none⟩ ∧
        ns = c.Namespace ∧ context = c.CurrentContext) ∨
      ((run (c.CheckKubeContext env generatedConfig noWarning log)).2 =
          pre ++ usingInfo ns context ++
            [.NewClientFromContext context ns true c.kubeLoader] ∧
        (run (c.CheckKubeContext env generatedConfig noWarning log)).1 =
          (run (NewClientFromContext env context ns true c.kubeLoader)).1) := by
  rcases CheckKubeContext_paths env c generatedConfig noWarning log with
    ⟨hq, h⟩ | ⟨g, hg, hlevel, hnw, ⟨hl, h⟩ | ⟨last, hl, ⟨hc, hn, h⟩ |
      ⟨hc1, hc2, ⟨ht, h⟩ | ⟨ht, ⟨err', hq, h⟩ | ⟨hq, h⟩ | ⟨kc, hq, hkc, h⟩⟩⟩ |
      ⟨hc, hn1, hn2,
        ⟨ht, h⟩ | ⟨ht, ⟨err', hq, h⟩ | ⟨hq, h⟩ | ⟨ns, hq, hns, h⟩⟩⟩⟩⟩
  all_goals (try subst hg)
  all_goals (try subst hnw)
  · exact ⟨[], _, _, Or.inl ⟨by rw [h, List.nil_append], by rw [h], rfl, rfl⟩⟩
  · exact ⟨_, _, _, Or.inl ⟨by rw [h], by rw [h], rfl, rfl⟩⟩
  · exact ⟨_, _, _, Or.inl ⟨by rw [h], by rw [h], rfl, rfl⟩⟩
  · exact absurd (returnsEarly_of_question env c g log last _ hl hlevel
      (driftQuestion_context c last hc1 hc2) (Or.inl ht)) (by simp [hcomplete])
  · exact absurd (returnsEarly_of_question env c g log last _ hl hlevel
      (driftQuestion_context c last hc1 hc2) (Or.inr ⟨err', hq⟩)) (by simp [hcomplete])
  · exact ⟨_, _, _, Or.inl ⟨by rw [h], by rw [h], rfl, rfl⟩⟩
  · exact ⟨_, _, _, Or.inr ⟨by rw [h], by rw [h]⟩⟩
  · exact absurd (returnsEarly_of_question env c g log last _ hl hlevel
      (driftQuestion_namespace c last hc hn1 hn2) (Or.inl ht)) (by simp [hcomplete])
  · exact absurd (returnsEarly_of_question env c g log last _ hl hlevel
      (driftQuestion_namespace c last hc hn1 hn2) (Or.inr ⟨err', hq⟩)) (by simp [hcomplete])
  · exact ⟨_, _, _, Or.inl ⟨by rw [h], by rw [h], rfl, rfl⟩⟩
  · exact ⟨_, _, _, Or.inr ⟨by rw [h], by rw [h]⟩⟩

/-- C7, amended, at a context mismatch the user resolves by picking the last context. -/
theorem CheckKubeContext_final_info_witness :
    ∃ pre ns context,
      ((run ((sampleClient "staging" "default").CheckKubeContext (sampleEnv true)
          (some (sampleGenerated (some ⟨"dev", "prod"⟩))) false
          (sampleLogger (.ok "prod")))).2 = pre ++ usingInfo ns context ∧
        (run ((sampleClient "staging" "default").CheckKubeContext (sampleEnv true)
          (some (sampleGenerated (some ⟨"dev", "prod"⟩))) false
          (sampleLogger (.ok "prod")))).1 = ⟨some (sampleClient "staging" "default"), none⟩ ∧
        ns = (sampleClient "staging" "default").Namespace ∧
        context = (sampleClient "staging" "default").CurrentContext) ∨
      ((run ((sampleClient "staging" "default").CheckKubeContext (sampleEnv true)
          (some (sampleGenerated (some ⟨"dev", "prod"⟩))) false
          (sampleLogger (.ok "prod")))).2 =
          pre ++ usingInfo ns context ++
            [.NewClientFromContext context ns true
              (sampleClient "staging" "default").kubeLoader] ∧
        (run ((sampleClient "staging" "default").CheckKubeContext (sampleEnv true)
          (some (sampleGenerated (some ⟨"dev", "prod"⟩))) false
          (sampleLogger (.ok "prod")))).1 =
          (run (NewClientFromContext (sampleEnv true) context ns true
            (sampleClient "staging" "default").kubeLoader)).1) :=
  CheckKubeContext_final_info (sampleEnv true) (sampleClient "staging" "default")
    (some (sampleGenerated (some ⟨"dev", "prod"⟩))) false (sampleLogger (.ok "prod"))
    (by decide)

/-! ## Claims about `NewClientBySelect` -/

/-- With a loaded kube config that has at least one context, `NewClientBySelect` is the
loop on the sorted context names. -/
theorem NewClientBySelect_loop (env : Env) (switchContext : Bool) (kubeLoader : Loader)
    (kubeConfig : KubeConfig) (answers : List (Except Error String))
    (hconfig : kubeLoader.LoadRawConfig = .ok kubeConfig)
    (hsome : (kubeConfig.Contexts.map Prod.fst).dedup ≠ []) :
    run (NewClientBySelect env false switchContext kubeLoader answers) =
      run (selectLoop env false switchContext kubeLoader kubeConfig
        (offeredOptions kubeConfig) answers) := by
  simp [run, NewClientBySelect, offeredOptions, hconfig, hsome, StateT.run, bind, StateT.bind,
    pure, StateT.pure]

/-- With a loaded kube config that has no context, `NewClientBySelect` fails at once. -/
theorem NewClientBySelect_empty (env : Env) (switchContext : Bool) (kubeLoader : Loader)
    (kubeConfig : KubeConfig) (answers : List (Except Error String))
    (hconfig : kubeLoader.LoadRawConfig = .ok kubeConfig)
    (hnone : (kubeConfig.Contexts.map Prod.fst).dedup = []) :
    run (NewClientBySelect env false switchContext kubeLoader answers) =
      (.returned ⟨none, some (.New ("No kubectl context found. Make sure kubectl is " ++
        "installed and you have a working kubernetes context configured"))⟩, []) := by
  simp [run, NewClientBySelect, hconfig, hnone, StateT.run, bind, StateT.bind,
    pure, StateT.pure]

/-- C4: with `allowPrivate = false`, a kube config in which every context names an
existing cluster, and answers drawn from the offered options, `NewClientBySelect` never
dereferences a nil pointer; whenever it enters `NewClientFromContext` it does so with
(c, "", switchContext, kubeLoader) for a context c whose server host is not a private
literal IP; and any run of answers on private hosts, however long, is rejected answer by
answer (question, then info line naming the host), after which the same question is asked
again and the call goes on as it would on the remaining answers alone. -/
theorem NewClientBySelect_never_private (env : Env) (switchContext : Bool)
    (kubeLoader : Loader) (kubeConfig : KubeConfig) (answers : List (Except Error String))
    (hconfig : kubeLoader.LoadRawConfig = .ok kubeConfig)
    (hclusters : ∀ entry ∈ kubeConfig.Contexts,
      (kubeConfig.Clusters.lookup entry.2.Cluster).isSome = true)
    (hoffered : ∀ name, .ok name ∈ answers → name ∈ offeredOptions kubeConfig) :
    (run (NewClientBySelect env false switchContext kubeLoader answers)).1 ≠
        .nilPointerDereference ∧
      (∀ e ∈ (run (NewClientBySelect env false switchContext kubeLoader answers)).2,
        e.isNewClient = true →
          ∃ name host, e = .NewClientFromContext name "" switchContext kubeLoader ∧
            serverHost env kubeConfig name = some host ∧ isPrivateHost env host = false) ∧
      (∀ rejected rest, answers = rejected ++ rest →
        (∀ a ∈ rejected, ∃ name host, a = .ok name ∧
          serverHost env kubeConfig name = some host ∧ isPrivateHost env host = true) →
        run (NewClientBySelect env false switchContext kubeLoader answers) =
            ((run (NewClientBySelect env false switchContext kubeLoader rest)).1,
              rejections env kubeConfig rejected ++
                (run (NewClientBySelect env false switchContext kubeLoader rest)).2) ∧
          (rejected ≠ [] →
            (run (NewClientBySelect env false switchContext kubeLoader rest)).2.head? =
              some (.Question (selectQuestion kubeConfig)))) := by
  by_cases hsome : (kubeConfig.Contexts.map Prod.fst).dedup = []
  · have hkeys : kubeConfig.Contexts.map Prod.fst = [] := by
      cases hk : kubeConfig.Contexts.map Prod.fst with
      | nil => rfl
      | cons k ks =>
        have : k ∈ (kubeConfig.Contexts.map Prod.fst).dedup :=
          List.mem_dedup.mpr (hk ▸ List.mem_cons_self _ _)
        rw [hsome] at this
        cases this
    have hcontexts : kubeConfig.Contexts = [] := List.map_eq_nil_iff.mp hkeys
    rw [NewClientBySelect_empty env switchContext kubeLoader kubeConfig answers hconfig hsome]
    refine ⟨by simp, by simp, ?_⟩
    intro rejected rest _ hprivate
    rw [NewClientBySelect_empty env switchContext kubeLoader kubeConfig rest hconfig hsome]
    cases rejected with
    | nil => exact ⟨rfl, fun h => absurd rfl h⟩
    | cons a rejected =>
      obtain ⟨name, host, -, hhost, -⟩ := hprivate a (List.mem_cons_self _ _)
      simp [serverHost, hcontexts] at hhost
  · rw [NewClientBySelect_loop env switchContext kubeLoader kubeConfig answers hconfig hsome]
    refine ⟨selectLoop_no_nil env switchContext kubeLoader kubeConfig hclusters answers
      hoffered, selectLoop_public_only env switchContext kubeLoader kubeConfig answers, ?_⟩
    intro rejected rest hsplit hprivate
    rw [NewClientBySelect_loop env switchContext kubeLoader kubeConfig rest hconfig hsome]
    refine ⟨?_, fun _ => selectLoop_head env switchContext kubeLoader kubeConfig rest⟩
    subst hsplit
    simp only [run]
    rw [selectLoop_rejections env switchContext kubeLoader kubeConfig rejected rest hprivate,
      selectLoop_run]
    rfl

/-- C4 at the sample kube config: the private context `home` is chosen twice and rejected
twice, then `work` is chosen. -/
theorem NewClientBySelect_never_private_witness :
    run (NewClientBySelect (sampleEnv true) false true sampleLoader
        [.ok "home", .ok "home", .ok "work"]) =
      ((run (NewClientBySelect (sampleEnv true) false true sampleLoader [.ok "work"])).1,
        rejections (sampleEnv true) sampleKubeConfig [.ok "home", .ok "home"] ++
          (run (NewClientBySelect (sampleEnv true) false true sampleLoader [.ok "work"])).2) :=
  ((NewClientBySelect_never_private (sampleEnv true) true sampleLoader sampleKubeConfig
    [.ok "home", .ok "home", .ok "work"] rfl (by decide)
    (fun name h => by
      have hname : name = "home" ∨ name = "work" := by simpa using h
      rcases hname with rfl | rfl
      · exact (mem_offeredOptions sampleKubeConfig "home").mpr (by decide)
      · exact (mem_offeredOptions sampleKubeConfig "work").mpr (by decide))).2.2
    [.ok "home", .ok "home"] [.ok "work"] rfl
    (fun a h => by
      have ha : a = .ok "home" := by simpa using h
      exact ⟨"home", "10.0.0.1", ha, by decide, by decide⟩)).1

end Kubectl
